import Mathlib

/-!
Verification of the GigaFlair SIP2 bridge protocol engine.

This file gives a shallow embedding, in Lean 4, of the correctness-critical
parts of the bridge: the checksum codec (`calculateChecksum`, `appendChecksum`,
`verifyChecksum`), the field sanitizer and the command formatters, the SIP2
response parsers (`parseFields`, `parseFieldsMulti`, `parseExtensions` and the
twelve `parse*Response` functions), the per-branch circuit breaker, and the
PII masking service.  JavaScript strings are modelled as `List Char`
(`charCodeAt` becomes `Char.toNat`; all protocol data is ASCII), fallible
code returns `Except`, and the impure timestamp source is passed explicitly.
-/

deriving instance DecidableEq for Except

namespace SipBridge

/-- JavaScript strings, modelled as lists of characters. -/
abbrev JStr := List Char

/-- The errors thrown by the embedded code paths. -/
inductive JsError where
  | invalidSequence : JsError
  | unexpectedResponseCode : JsError
  | masterKeyMissing : JsError
  | circuitOpen : JsError
  | halfOpenProbe : JsError
  /-- named by the spec for `verifyChecksum`; present so that statements
  about it are expressible — the code never actually throws it -/
  | malformedTrailer : JsError
  deriving DecidableEq, Repr

/-- JS `s.substring(a, b)` for `a ≤ b` (the only way the sources call it):
clamps to the string length, returns the characters in `[a, b)`. -/
def jsSubstring (s : JStr) (a b : Nat) : JStr :=
  (s.drop a).take (b - a)

/-- JS `s.substring(a)`: the characters from index `a` on. -/
def jsSubstringFrom (s : JStr) (a : Nat) : JStr :=
  s.drop a

/-- JS whitespace characters recognized by `String.prototype.trim` (the code
points relevant to ASCII SIP2 traffic plus the common Unicode ones). -/
def isJsWhite (c : Char) : Bool :=
  c.toNat = 9 ∨ c.toNat = 10 ∨ c.toNat = 11 ∨ c.toNat = 12 ∨ c.toNat = 13 ∨
  c.toNat = 32 ∨ c.toNat = 160 ∨ c.toNat = 8232 ∨ c.toNat = 8233 ∨ c.toNat = 65279

/-- JS `s.trim()`: strip whitespace from both ends. -/
def jsTrim (s : JStr) : JStr :=
  ((s.dropWhile isJsWhite).reverse.dropWhile isJsWhite).reverse

/-- Numeric value of a decimal digit character. -/
def digitVal (c : Char) : Nat := c.toNat - 48

/-- Decimal digits of a list of digit characters, most significant first. -/
def decVal (ds : JStr) : Nat :=
  ds.foldl (fun acc c => acc * 10 + digitVal c) 0

/-- JS `parseInt(s, 10)`.  `none` models `NaN`: leading whitespace is skipped,
an optional sign is read, then the longest digit run; no digits means `NaN`. -/
def jsParseInt (s : JStr) : Option Int :=
  let t := s.dropWhile isJsWhite
  let signAndRest : Int × JStr :=
    match t with
    | '-' :: r => (-1, r)
    | '+' :: r => (1, r)
    | r => (1, r)
  let ds := signAndRest.2.takeWhile Char.isDigit
  if ds.isEmpty then none else some (signAndRest.1 * Int.ofNat (decVal ds))

/-- JS truthiness of a string: the empty string is falsy. -/
def jsTruthyStr (s : JStr) : Bool := !s.isEmpty

/-- `fields[t] || dflt` on an optional string value: JS replaces both a
missing value and a present-but-empty value by the default. -/
def orDefault (v : Option JStr) (dflt : JStr) : JStr :=
  match v with
  | none => dflt
  | some s => if s.isEmpty then dflt else s

/-- ASCII uppercase conversion of one character (`String.prototype.toUpperCase`
restricted to the ASCII range, which is all the codec ever feeds it). -/
def asciiUpper (c : Char) : Char :=
  if 'a' ≤ c ∧ c ≤ 'z' then Char.ofNat (c.toNat - 32) else c

/-- ASCII lowercase conversion of one character. -/
def asciiLower (c : Char) : Char :=
  if 'A' ≤ c ∧ c ≤ 'Z' then Char.ofNat (c.toNat + 32) else c

/-- `s.toLowerCase()` over ASCII keys. -/
def jsLower (s : JStr) : JStr := s.map asciiLower

/-- Decidable test used by the regexes `[0-9A-Fa-f]`. -/
def isHexDigitChar (c : Char) : Bool :=
  ('0' ≤ c ∧ c ≤ '9') ∨ ('A' ≤ c ∧ c ≤ 'F') ∨ ('a' ≤ c ∧ c ≤ 'f')

/-- The regex class `[A-Z]`. -/
def isUpperAZ (c : Char) : Bool := 'A' ≤ c ∧ c ≤ 'Z'

/-- JS `a.includes(b)` on strings: substring containment. -/
def containsSub (hay needle : JStr) : Bool :=
  match hay with
  | [] => needle.isEmpty
  | c :: t => needle.isPrefixOf (c :: t) || containsSub t needle

/-- Fuelled digit extraction for `natDec`; the fuel bounds the digit count,
so `n + 1` is always enough. -/
def natDecAux : Nat → Nat → JStr
  | 0, _ => []
  | fuel + 1, n =>
    if n < 10 then [Char.ofNat (48 + n)]
    else natDecAux fuel (n / 10) ++ [Char.ofNat (48 + n % 10)]

/-- Decimal rendering of a natural number (JS `String(n)` / `n.toString()`
for a non-negative integer). -/
def natDec (n : Nat) : JStr := natDecAux (n + 1) n

/-- JS `s.padStart(w, c)`. -/
def jsPadStart (s : JStr) (w : Nat) (c : Char) : JStr :=
  List.replicate (w - s.length) c ++ s

/-- JS `s.padEnd(w, ' ')` (the formatter only pads with spaces). -/
def jsPadEnd (s : JStr) (w : Nat) : JStr :=
  s ++ List.replicate (w - s.length) ' '

/-!
## Checksum codec

Embeds `calculateChecksum`, `appendChecksum` and `verifyChecksum` from the
checksum module (`src/utils/checksum.ts`).
-/

/-- Sum of the UTF-16 code units of the message
(`sum += message.charCodeAt(i)` over the whole string). -/
def sumCodes (s : JStr) : Nat :=
  s.foldl (fun acc c => acc + c.toNat) 0

/-- The 16-bit checksum value: `(-sum & 0xFFFF)`, i.e. the two's-complement
negation of the character sum truncated to 16 bits. -/
def checksumVal (s : JStr) : Nat :=
  (65536 - sumCodes s % 65536) % 65536

/-- Uppercase hex digit for a value in `0..15`. -/
def hexDigitUpper (n : Nat) : Char :=
  if n < 10 then Char.ofNat (48 + n) else Char.ofNat (55 + n)

/-- Four-digit uppercase hex rendering of a 16-bit value
(`checksum.toString(16).toUpperCase().padStart(4, '0')`). -/
def toHex4 (n : Nat) : JStr :=
  [hexDigitUpper (n / 4096 % 16), hexDigitUpper (n / 256 % 16),
   hexDigitUpper (n / 16 % 16), hexDigitUpper (n % 16)]

/-- `calculateChecksum(message)`: negative of the code-unit sum modulo 2^16,
rendered as four uppercase hex digits. -/
def calculateChecksum (message : JStr) : JStr :=
  toHex4 (checksumVal message)

/-- `appendChecksum(message, seqNum)`: throws for a sequence number above 9,
otherwise appends `AY<d>AZ<hex4>\r` where the hex is computed over
`message + "AY" + <d> + "AZ"`. -/
def appendChecksum (message : JStr) (seqNum : Nat) : Except JsError JStr :=
  if seqNum > 9 then .error .invalidSequence
  else
    let seqStr := (natDec seqNum).take 1
    let preFrame := message ++ ['A', 'Y'] ++ seqStr ++ ['A', 'Z']
    .ok (preFrame ++ calculateChecksum preFrame ++ ['\r'])

/-- The `\r?` part of the trailer regex, acting on the reversed frame:
drop a leading (i.e. originally trailing) carriage return if present. -/
def stripCRrev : JStr → JStr
  | [] => []
  | c :: r => if c = '\r' then r else c :: r

/-- The `AZ([0-9A-Fa-f]{4})$` part of the trailer regex, acting on the
reversed frame: peel off four trailing characters preceded by `AZ`.  Returns
the captured four characters in frame order together with what precedes the
`AZ`. The hex-digit class is checked by the caller. -/
def splitTrailerRev : JStr → Option (JStr × Char × Char × Char × Char)
  | h4 :: h3 :: h2 :: h1 :: z :: a :: rest =>
    if z = 'Z' ∧ a = 'A' then some (rest, h1, h2, h3, h4) else none
  | _ => none

/-- `verifyChecksum(message)`: matches the trailer regex
`AZ([0-9A-Fa-f]{4})\r?$`; on no match returns `false`, otherwise recomputes
the checksum over the prefix up to and including `AZ` and compares it with the
uppercased trailing hex.  The source never throws; every path returns a
Boolean, so every branch here is `Except.ok`. -/
def verifyChecksum (message : JStr) : Except JsError Bool :=
  let core := stripCRrev message.reverse
  match splitTrailerRev core with
  | some (rest, h1, h2, h3, h4) =>
    if isHexDigitChar h1 ∧ isHexDigitChar h2 ∧ isHexDigitChar h3 ∧ isHexDigitChar h4 then
      let expected := [h1, h2, h3, h4].map asciiUpper
      let msgWithoutChecksum := ('Z' :: 'A' :: rest).reverse
      .ok (calculateChecksum msgWithoutChecksum = expected)
    else .ok false
  | none => .ok false

/-!
Specification-side description of a well-formed trailer, written from the
spec's words: the frame ends (ignoring an optional trailing `\r`) with `AZ`
followed by four hex digits, and the checksum recomputed over the prefix up
to and including `AZ` equals the trailing four hex digits compared
case-insensitively.  Used to state the corrected form of the `verify` claim.
-/

/-- The frame with an optional single trailing `\r` removed. -/
def dropTrailingCR (s : JStr) : JStr :=
  if s.getLast? = some '\r' then s.dropLast else s

/-- Spec-side: the frame (ignoring an optional trailing `\r`) ends with `AZ`
followed by four hex digits. -/
def specTrailerOk (s : JStr) : Bool :=
  let t := dropTrailingCR s
  4 + 2 ≤ t.length ∧
  (t.drop (t.length - 6)).take 2 = ['A', 'Z'] ∧
  (t.drop (t.length - 4)).all isHexDigitChar

/-- Spec-side: the checksum recomputed over the prefix up to and including
`AZ` equals the trailing four hex digits, compared case-insensitively. -/
def specChecksumMatches (s : JStr) : Bool :=
  let t := dropTrailingCR s
  calculateChecksum (t.take (t.length - 4)) = (t.drop (t.length - 4)).map asciiUpper

/-!
## Sanitizer and command formatters (`src/utils/sip-formatter.ts`)

`getSipTimestamp` reads the wall clock, so the formatters here take the
timestamp string `ts` as an explicit first parameter; everything else follows
the source line by line.
-/

/-- A character deleted by the sanitizer regex `[|\r\n\x00-\x1F]` (carriage
return and line feed are already inside the control range). -/
def isSipUnsafe (c : Char) : Bool := c = '|' ∨ c.toNat ≤ 31

/-- `sanitizeSipField(value)`: remove every `|`, `\r`, `\n` and every
control byte in `0x00`–`0x1F`. -/
def sanitizeSipField (value : JStr) : JStr :=
  value.filter (fun c => !isSipUnsafe c)

/-- An optional variable field: `if (v) msg += `TT${sanitizeSipField(v)}|``.
JS truthiness means a missing or empty value emits nothing. -/
def optTagField (tag : JStr) (v : Option JStr) : JStr :=
  match v with
  | some p => if jsTruthyStr p then tag ++ sanitizeSipField p ++ ['|'] else []
  | none => []

/-- Command 23: Patron Status Request. -/
def formatPatronStatusRequest (ts barcode institutionId : JStr) (seqNum : Nat)
    (language : JStr) : Except JsError JStr :=
  let safeBarcode := sanitizeSipField barcode
  let safeInst := sanitizeSipField institutionId
  let msg := "23".data ++ language.take 3 ++ ts ++ "AO".data ++ safeInst ++
    "|AA".data ++ safeBarcode ++ "|AC|".data
  appendChecksum msg seqNum

/-- Command 93: Login Request. -/
def formatLoginRequest (uid pwd locationCode : JStr) (seqNum : Nat) :
    Except JsError JStr :=
  let msg := "9300CN".data ++ sanitizeSipField uid ++ "|CO".data ++
    sanitizeSipField pwd ++ "|CP".data ++ sanitizeSipField locationCode ++ "|".data
  appendChecksum msg seqNum

/-- Command 11: Checkout. -/
def formatCheckoutRequest (ts patronBarcode itemBarcode institutionId : JStr)
    (seqNum : Nat) (patronPin : Option JStr) : Except JsError JStr :=
  let nbDueDate := List.replicate 18 ' '
  let msg := "11YN".data ++ ts ++ nbDueDate ++ "AO".data ++
    sanitizeSipField institutionId ++ "|AA".data ++ sanitizeSipField patronBarcode ++
    "|AB".data ++ sanitizeSipField itemBarcode ++ "|AC|".data ++
    optTagField "AD".data patronPin
  appendChecksum msg seqNum

/-- Command 09: Checkin. -/
def formatCheckinRequest (ts itemBarcode institutionId : JStr) (seqNum : Nat) :
    Except JsError JStr :=
  let msg := "09N".data ++ ts ++ ts ++ "AO".data ++ sanitizeSipField institutionId ++
    "|AB".data ++ sanitizeSipField itemBarcode ++ "|AC|".data
  appendChecksum msg seqNum

/-- Command 17: Item Information. -/
def formatItemInformationRequest (ts itemBarcode institutionId : JStr)
    (seqNum : Nat) : Except JsError JStr :=
  let msg := "17".data ++ ts ++ "AO".data ++ sanitizeSipField institutionId ++
    "|AB".data ++ sanitizeSipField itemBarcode ++ "|".data
  appendChecksum msg seqNum

/-- Command 29: Renew. -/
def formatRenewRequest (ts patronBarcode itemBarcode institutionId : JStr)
    (seqNum : Nat) (patronPin : Option JStr) : Except JsError JStr :=
  let nbDueDate := List.replicate 18 ' '
  let msg := "29YN".data ++ ts ++ nbDueDate ++ "AO".data ++
    sanitizeSipField institutionId ++ "|AA".data ++ sanitizeSipField patronBarcode ++
    "|AB".data ++ sanitizeSipField itemBarcode ++ "|".data ++
    optTagField "AD".data patronPin
  appendChecksum msg seqNum

/-- Command 37: Fee Paid. -/
def formatFeePaidRequest (ts patronBarcode feeId amount institutionId : JStr)
    (seqNum : Nat) (feeType paymentType currencyType : JStr) :
    Except JsError JStr :=
  let safeCurrency := jsPadEnd ((sanitizeSipField currencyType).take 3) 3
  let msg := "37".data ++ ts ++ (jsPadEnd feeType 2).take 2 ++
    (jsPadEnd paymentType 2).take 2 ++ safeCurrency ++ "AO".data ++
    sanitizeSipField institutionId ++ "|AA".data ++ sanitizeSipField patronBarcode ++
    "|BK".data ++ sanitizeSipField feeId ++ "|BV".data ++ sanitizeSipField amount ++
    "|BH".data ++ jsTrim safeCurrency ++ "|".data
  appendChecksum msg seqNum

/-- The five requested item-list flags of a Patron Information summary. -/
structure PatronInfoSummary where
  holds : Bool
  overdue : Bool
  charged : Bool
  fines : Bool
  /-- the `recall` flag (`recall` is a Mathlib command name, hence the suffix) -/
  recallReq : Bool
  deriving DecidableEq, Repr

/-- Command 63: Patron Information. -/
def formatPatronInformationRequest (ts patronBarcode : JStr)
    (summary : PatronInfoSummary) (startItem endItem : Nat)
    (institutionId : JStr) (seqNum : Nat) (language : JStr) :
    Except JsError JStr :=
  let f : Bool → Char := fun b => if b then 'Y' else ' '
  let summaryFlags := [f summary.holds, f summary.overdue, f summary.charged,
    f summary.fines, f summary.recallReq] ++ List.replicate 5 ' '
  let start := jsPadStart (natDec startItem) 4 '0'
  let stop := jsPadStart (natDec endItem) 4 '0'
  let msg := "63".data ++ language.take 3 ++ ts ++ summaryFlags ++ "AO".data ++
    sanitizeSipField institutionId ++ "|AA".data ++ sanitizeSipField patronBarcode ++
    "|BP".data ++ start ++ "|BQ".data ++ stop ++ "|".data
  appendChecksum msg seqNum

/-- Command 15: Hold.  `holdMode` is one of `+`, `-`, `*`. -/
def formatHoldRequest (ts : JStr) (holdMode : Char)
    (patronBarcode : JStr) (itemBarcode expiryDate pickupLocation : Option JStr)
    (institutionId : JStr) (seqNum : Nat) (titleId : Option JStr) :
    Except JsError JStr :=
  let msg := "15".data ++ [holdMode] ++ ts ++
    optTagField "BW".data expiryDate ++ "AO".data ++
    sanitizeSipField institutionId ++ "|AA".data ++ sanitizeSipField patronBarcode ++
    "|".data ++ optTagField "AB".data itemBarcode ++
    optTagField "BT".data titleId ++ optTagField "BS".data pickupLocation ++
    "AC|".data
  appendChecksum msg seqNum

/-- Command 65: Renew All. -/
def formatRenewAllRequest (ts patronBarcode institutionId : JStr)
    (seqNum : Nat) : Except JsError JStr :=
  let msg := "65".data ++ ts ++ ts ++ "AO".data ++ sanitizeSipField institutionId ++
    "|AA".data ++ sanitizeSipField patronBarcode ++ "|AC|".data
  appendChecksum msg seqNum

/-- Command 35: End Patron Session. -/
def formatEndSessionRequest (ts patronBarcode institutionId : JStr)
    (seqNum : Nat) : Except JsError JStr :=
  let msg := "35".data ++ ts ++ "AO".data ++ sanitizeSipField institutionId ++
    "|AA".data ++ sanitizeSipField patronBarcode ++ "|AC|".data
  appendChecksum msg seqNum

/-- Command 99: SC Status. -/
def formatSCStatusRequest (seqNum : Nat) : Except JsError JStr :=
  appendChecksum "9900802.00".data seqNum

/-- Command 01: Block Patron. -/
def formatBlockPatronRequest (ts patronBarcode : JStr) (cardRetained : Bool)
    (blockedCardMessage institutionId : JStr) (seqNum : Nat) :
    Except JsError JStr :=
  let retained : JStr := if cardRetained then ['Y'] else ['N']
  let msg := "01".data ++ retained ++ ts ++ "AO".data ++
    sanitizeSipField institutionId ++ "|AA".data ++ sanitizeSipField patronBarcode ++
    "|AC|AL".data ++ sanitizeSipField blockedCardMessage ++ "|".data
  appendChecksum msg seqNum

/-- Command 19: Item Status Update.  `securityMarker` is one of `0`–`3`. -/
def formatItemStatusUpdateRequest (ts itemBarcode : JStr)
    (securityMarker : Char) (institutionId : JStr) (seqNum : Nat) :
    Except JsError JStr :=
  let msg := "19".data ++ [securityMarker] ++ ts ++ "AO".data ++
    sanitizeSipField institutionId ++ "|AB".data ++ sanitizeSipField itemBarcode ++
    "|".data
  appendChecksum msg seqNum

/-- Command 25: Patron Enable. -/
def formatPatronEnableRequest (ts patronBarcode : JStr)
    (patronPin : Option JStr) (institutionId : JStr) (seqNum : Nat) :
    Except JsError JStr :=
  let msg := "25".data ++ ts ++ "AO".data ++ sanitizeSipField institutionId ++
    "|AA".data ++ sanitizeSipField patronBarcode ++ "|AC|".data ++
    optTagField "AD".data patronPin
  appendChecksum msg seqNum

/-!
## Response parser infrastructure (`src/utils/sip-parser.ts`)

A JS object with string keys is modelled as an association list with
insert-or-replace assignment (`upsert`), which preserves both JS insertion
order and overwrite-in-place semantics.
-/

/-- A two-character SIP2 field tag. -/
abbrev Tag := Char × Char

/-- JS object assignment `obj[k] = v`: replace the entry in place if the key
exists, append otherwise. -/
def upsert : List (Tag × JStr) → Tag → JStr → List (Tag × JStr)
  | [], k, v => [(k, v)]
  | p :: t, k, v => if p.1 = k then (k, v) :: t else p :: upsert t k v

/-- JS property read `obj[k]` on a string-valued object. -/
def lookupTag (m : List (Tag × JStr)) (k : Tag) : Option JStr :=
  (m.find? (fun p => p.1 = k)).map Prod.snd

/-- JS `obj[k].push(v)` with on-demand array creation, as in
`parseFieldsMulti`: append to the entry's array if the key exists, create a
one-element array otherwise. -/
def pushVal : List (Tag × List JStr) → Tag → JStr → List (Tag × List JStr)
  | [], k, v => [(k, [v])]
  | p :: t, k, v => if p.1 = k then (p.1, p.2 ++ [v]) :: t else p :: pushVal t k v

/-- JS property read on an array-valued object. -/
def lookupMulti (m : List (Tag × List JStr)) (k : Tag) : Option (List JStr) :=
  (m.find? (fun p => p.1 = k)).map Prod.snd

/-- JS `raw.split('|')`: always returns at least one (possibly empty)
segment; a trailing `|` yields a trailing empty segment. -/
def splitOnPipe : JStr → List JStr
  | [] => [[]]
  | c :: rest =>
    let r := splitOnPipe rest
    if c = '|' then [] :: r
    else
      match r with
      | [] => [[c]]
      | p :: ps => (c :: p) :: ps

/-- The `fixedFieldLengths` table of `parseFields` / `parseFieldsMulti`:
first position where variable-length tag fields may appear, keyed by the
two-character message type, defaulting to 15. -/
def fixedFieldThreshold (msgType : JStr) : Nat :=
  if msgType = "24".data then 37
  else if msgType = "64".data then 63
  else if msgType = "98".data then 36
  else if msgType = "10".data then 24
  else if msgType = "12".data then 24
  else if msgType = "30".data then 21
  else if msgType = "16".data then 24
  else if msgType = "36".data then 21
  else if msgType = "66".data then 26
  else if msgType = "26".data then 37
  else if msgType = "20".data then 21
  else if msgType = "94".data then 3
  else if msgType = "93".data then 4
  else if msgType = "18".data then 37
  else 15

/-- The lazy value part `([^|]*?)(?=[A-Z]{2}|$)` of the tag regex: consume
characters (the segment contains no `|`) until the lookahead holds, i.e.
until two uppercase letters follow or the segment ends.  Returns the value
and the unconsumed remainder. -/
def takeValue : JStr → JStr × JStr
  | a :: b :: rest =>
    if isUpperAZ a ∧ isUpperAZ b then ([], a :: b :: rest)
    else
      let r := takeValue (b :: rest)
      (a :: r.1, r.2)
  | other => (other, [])

/-- Fuelled scanner for the tag regex; every step consumes at least one
character, so fuel equal to the segment length is always enough. -/
def scanSegAux : Nat → Nat → JStr → List (Nat × Tag × JStr)
  | 0, _, _ => []
  | fuel + 1, idx, l =>
    match l with
    | a :: b :: rest =>
      if isUpperAZ a ∧ isUpperAZ b then
        let tv := takeValue rest
        (idx, (a, b), tv.1) :: scanSegAux fuel (idx + 2 + tv.1.length) tv.2
      else scanSegAux fuel (idx + 1) (b :: rest)
    | _ => []

/-- Successive matches of `([A-Z]{2})([^|]*?)(?=[A-Z]{2}|$)` over one
segment with `exec`, reported as (match index, tag, value): scan for the
first two-uppercase position, capture the lazy value, and resume at the end
of the match. -/
def scanSeg (idx : Nat) (l : JStr) : List (Nat × Tag × JStr) :=
  scanSegAux l.length idx l

/-- A match of `/AY(\d)AZ/` at the head of the string: the captured digit. -/
def ayHere : JStr → Option Char
  | 'A' :: 'Y' :: d :: 'A' :: 'Z' :: _ => if d.isDigit then some d else none
  | _ => none

/-- `raw.match(/AY(\d)AZ/)`: the digit of the first such run anywhere in the
string. -/
def findAYseq : JStr → Option Char
  | [] => none
  | a :: rest =>
    match ayHere (a :: rest) with
    | some d => some d
    | none => findAYseq rest

/-- The inner loop body of `parseFields` over the first segment's regex
matches: keep a match at or beyond the threshold index. -/
def pfScanStep (threshold : Nat) (fs : List (Tag × JStr))
    (m : Nat × Tag × JStr) : List (Tag × JStr) :=
  if threshold ≤ m.1 then upsert fs m.2.1 m.2.2 else fs

/-- The loop body of `parseFields` over the `|`-separated segments (with
their indices). -/
def pfSegStep (threshold : Nat) (fields : List (Tag × JStr))
    (ip : Nat × JStr) : List (Tag × JStr) :=
  if ip.1 = 0 then (scanSeg 0 ip.2).foldl (pfScanStep threshold) fields
  else
    match ip.2 with
    | a :: b :: rest =>
      if isUpperAZ a ∧ isUpperAZ b then upsert fields (a, b) rest else fields
    | _ => fields

/-- `parseFields(raw)`: split on `|`; in the first segment collect regex tag
matches whose index is at or beyond the per-type threshold; every further
segment contributes its leading two-uppercase tag; finally the sequence digit
of an `AY<d>AZ` run is recorded under `AY`. -/
def parseFields (raw : JStr) : List (Tag × JStr) :=
  let parts := splitOnPipe raw
  let msgType := (parts.headD []).take 2
  let threshold := fixedFieldThreshold msgType
  let fields := parts.enum.foldl (pfSegStep threshold) []
  match findAYseq raw with
  | some d => upsert fields ('A', 'Y') [d]
  | none => fields

/-- `parseFieldsMulti(raw)`: like `parseFields` but collects every value of
each tag into an array, and has no `AY` special case. -/
def parseFieldsMulti (raw : JStr) : List (Tag × List JStr) :=
  let parts := splitOnPipe raw
  let msgType := (parts.headD []).take 2
  let threshold := fixedFieldThreshold msgType
  let step := fun (fields : List (Tag × List JStr)) (ip : Nat × JStr) =>
    if ip.1 = 0 then
      (scanSeg 0 ip.2).foldl
        (fun fs m => if threshold ≤ m.1 then pushVal fs m.2.1 m.2.2 else fs) fields
    else
      match ip.2 with
      | a :: b :: rest =>
        if isUpperAZ a ∧ isUpperAZ b then pushVal fields (a, b) rest else fields
      | _ => fields
  parts.enum.foldl step []

/-- One step of the `parseExtensions` loop body: skip `AY`/`AZ`, skip known
tags, keep everything else. -/
def extStep (knownTags : List Tag) (ext : List (Tag × JStr)) (p : Tag × JStr) :
    List (Tag × JStr) :=
  if p.1 = ('A', 'Y') ∨ p.1 = ('A', 'Z') then ext
  else if knownTags.contains p.1 then ext
  else upsert ext p.1 p.2

/-- The object built by `parseExtensions` before the emptiness check. -/
def parseExtensionsList (raw : JStr) (knownTags : List Tag) : List (Tag × JStr) :=
  (parseFields raw).foldl (extStep knownTags) []

/-- `parseExtensions(raw, knownTags)`: every parsed tag that is neither
`AY`/`AZ` nor known, or `undefined` when there are none. -/
def parseExtensions (raw : JStr) (knownTags : List Tag) :
    Option (List (Tag × JStr)) :=
  let e := parseExtensionsList raw knownTags
  if e.isEmpty then none else some e

/-!
## Known standard tag sets per response type
-/

def TAGS_PATRON_STATUS : List Tag :=
  [('A','O'), ('A','A'), ('A','E'), ('B','L'), ('B','Z'), ('C','A'),
   ('C','B'), ('A','U'), ('C','D'), ('A','S'), ('A','F'), ('A','G')]

def TAGS_CHECKOUT : List Tag :=
  [('A','O'), ('A','A'), ('A','B'), ('A','J'), ('A','H'), ('B','V'),
   ('A','F'), ('A','G')]

def TAGS_CHECKIN : List Tag :=
  [('A','O'), ('A','B'), ('A','J'), ('A','Q'), ('A','F'), ('A','G')]

def TAGS_ITEM_INFO : List Tag :=
  [('A','O'), ('A','B'), ('A','J'), ('B','G'), ('B','H'), ('C','K'), ('A','F')]

def TAGS_FEE_PAID : List Tag :=
  [('A','O'), ('A','A'), ('B','K'), ('B','H'), ('A','F')]

def TAGS_PATRON_INFO : List Tag :=
  [('A','O'), ('A','A'), ('A','E'), ('B','L'), ('B','E'), ('B','F'),
   ('B','D'), ('A','F'), ('A','T'), ('A','U'), ('A','V'), ('B','U'),
   ('B','J'), ('B','P'), ('B','Q')]

def TAGS_HOLD : List Tag :=
  [('A','O'), ('A','A'), ('A','B'), ('A','J'), ('B','W'), ('B','S'),
   ('M','N'), ('A','F'), ('A','G')]

def TAGS_RENEW_ALL : List Tag :=
  [('A','O'), ('A','A'), ('B','M'), ('B','N'), ('A','F')]

def TAGS_END_SESSION : List Tag :=
  [('A','O'), ('A','A'), ('A','F'), ('A','G')]

def TAGS_ACS_STATUS : List Tag :=
  [('A','O'), ('A','M'), ('B','X'), ('A','N'), ('A','F')]

def TAGS_ITEM_STATUS_UPDATE : List Tag :=
  [('A','O'), ('A','B'), ('A','J'), ('A','F'), ('A','G')]

/-!
## Typed response records and the twelve response parsers

Numeric record fields produced by `parseInt` are `Option Int`, with `none`
standing for JS `NaN`.  Optional variable fields are `Option JStr`
(`none` = `undefined`).  `raw[i] === c` becomes `raw.get? i = some c`,
which is also `false` when the string is too short, exactly as in JS.
-/

/-- The patron-status flag block shared by responses 24, 64 and 26. -/
structure PatronFlags where
  chargePrivilegesDenied : Bool
  renewalPrivilegesDenied : Bool
  recallPrivilegesDenied : Bool
  holdPrivilegesDenied : Bool
  cardReportedLost : Bool
  tooManyItemsOverdue : Bool
  excessiveFines : Bool
  deriving DecidableEq, Repr

/-- Reads the seven exposed flags out of a 14-character status mask. -/
def readPatronFlags (statusMask : JStr) : PatronFlags :=
  { chargePrivilegesDenied := statusMask.get? 0 = some 'Y'
  , renewalPrivilegesDenied := statusMask.get? 1 = some 'Y'
  , recallPrivilegesDenied := statusMask.get? 2 = some 'Y'
  , holdPrivilegesDenied := statusMask.get? 3 = some 'Y'
  , cardReportedLost := statusMask.get? 4 = some 'Y'
  , tooManyItemsOverdue := statusMask.get? 6 = some 'Y'
  , excessiveFines := statusMask.get? 10 = some 'Y' }

structure PatronStatusResponse where
  patronBarcode : JStr
  patronName : JStr
  validPatron : Bool
  holdItemsCount : Option Int
  overdueItemsCount : Option Int
  chargedItemsCount : Option Int
  recallItemsCount : Option Int
  unavailHoldsCount : Option Int
  flags : PatronFlags
  screenMessages : List JStr
  extensions : Option (List (Tag × JStr))
  deriving DecidableEq, Repr

/-- Command 24: Patron Status Response. -/
def parsePatronStatusResponse (raw : JStr) :
    Except JsError PatronStatusResponse :=
  if !("24".data.isPrefixOf raw) then .error .unexpectedResponseCode
  else
    let statusMask := jsSubstring raw 2 16
    let fields := parseFields raw
    let multiFields := parseFieldsMulti raw
    .ok
    { patronBarcode := orDefault (lookupTag fields ('A','A')) []
    , patronName := orDefault (lookupTag fields ('A','E')) "Unknown".data
    , validPatron := orDefault (lookupTag fields ('B','L')) ['N'] = ['Y']
    , holdItemsCount := jsParseInt (orDefault (lookupTag fields ('B','Z')) ['0'])
    , overdueItemsCount := jsParseInt (orDefault (lookupTag fields ('C','A')) ['0'])
    , chargedItemsCount := jsParseInt (orDefault (lookupTag fields ('C','B')) ['0'])
    , recallItemsCount := jsParseInt (orDefault (lookupTag fields ('C','D')) ['0'])
    , unavailHoldsCount := jsParseInt (orDefault (lookupTag fields ('A','S')) ['0'])
    , flags := readPatronFlags statusMask
    , screenMessages := (lookupMulti multiFields ('A','F')).getD []
    , extensions := parseExtensions raw TAGS_PATRON_STATUS }

structure CheckoutResponse where
  ok : Bool
  renewalOk : Bool
  transactionDate : JStr
  institutionId : JStr
  patronBarcode : JStr
  itemBarcode : JStr
  titleId : JStr
  dueDate : JStr
  feeAmount : Option JStr
  screenMessage : Option JStr
  screenMessages : List JStr
  printLine : Option JStr
  extensions : Option (List (Tag × JStr))
  deriving DecidableEq, Repr

/-- Command 12 (also command 30, Renew): Checkout Response. -/
def parseCheckoutResponse (raw : JStr) : Except JsError CheckoutResponse :=
  if !("12".data.isPrefixOf raw) ∧ !("30".data.isPrefixOf raw) then
    .error .unexpectedResponseCode
  else
    let fields := parseFields raw
    let multiFields := parseFieldsMulti raw
    .ok
    { ok := raw.get? 2 = some '1'
    , renewalOk := raw.get? 3 = some 'Y'
    , transactionDate := jsTrim (jsSubstring raw 6 24)
    , institutionId := orDefault (lookupTag fields ('A','O')) []
    , patronBarcode := orDefault (lookupTag fields ('A','A')) []
    , itemBarcode := orDefault (lookupTag fields ('A','B')) []
    , titleId := orDefault (lookupTag fields ('A','J')) "Unknown Title".data
    , dueDate := orDefault (lookupTag fields ('A','H')) []
    , feeAmount := lookupTag fields ('B','V')
    , screenMessage := lookupTag fields ('A','F')
    , screenMessages := (lookupMulti multiFields ('A','F')).getD []
    , printLine := lookupTag fields ('A','G')
    , extensions := parseExtensions raw TAGS_CHECKOUT }

structure CheckinResponse where
  ok : Bool
  resensitize : Bool
  magneticMedia : Bool
  alert : Bool
  transactionDate : JStr
  institutionId : JStr
  itemBarcode : JStr
  titleId : JStr
  permanentLocation : Option JStr
  screenMessage : Option JStr
  screenMessages : List JStr
  printLine : Option JStr
  extensions : Option (List (Tag × JStr))
  deriving DecidableEq, Repr

/-- Command 10: Checkin Response. -/
def parseCheckinResponse (raw : JStr) : Except JsError CheckinResponse :=
  if !("10".data.isPrefixOf raw) then .error .unexpectedResponseCode
  else
    let fields := parseFields raw
    let multiFields := parseFieldsMulti raw
    .ok
    { ok := raw.get? 2 = some '1'
    , resensitize := raw.get? 3 = some 'Y'
    , magneticMedia := raw.get? 4 = some 'Y'
    , alert := raw.get? 5 = some 'Y'
    , transactionDate := jsTrim (jsSubstring raw 6 24)
    , institutionId := orDefault (lookupTag fields ('A','O')) []
    , itemBarcode := orDefault (lookupTag fields ('A','B')) []
    , titleId := orDefault (lookupTag fields ('A','J')) "Unknown Title".data
    , permanentLocation := lookupTag fields ('A','Q')
    , screenMessage := lookupTag fields ('A','F')
    , screenMessages := (lookupMulti multiFields ('A','F')).getD []
    , printLine := lookupTag fields ('A','G')
    , extensions := parseExtensions raw TAGS_CHECKIN }

structure ItemInformationResponse where
  circulationStatus : JStr
  securityMarker : JStr
  feeType : JStr
  transactionDate : JStr
  itemBarcode : JStr
  titleId : JStr
  owner : Option JStr
  currencyType : Option JStr
  callNumber : Option JStr
  extensions : Option (List (Tag × JStr))
  deriving DecidableEq, Repr

/-- Command 18: Item Information Response. -/
def parseItemInformationResponse (raw : JStr) :
    Except JsError ItemInformationResponse :=
  if !("18".data.isPrefixOf raw) then .error .unexpectedResponseCode
  else
    let fields := parseFields raw
    .ok
    { circulationStatus := jsSubstring raw 2 4
    , securityMarker := jsSubstring raw 4 6
    , feeType := jsSubstring raw 6 8
    , transactionDate := jsTrim (jsSubstring raw 8 26)
    , itemBarcode := orDefault (lookupTag fields ('A','B')) []
    , titleId := orDefault (lookupTag fields ('A','J')) "Unknown Title".data
    , owner := lookupTag fields ('B','G')
    , currencyType := lookupTag fields ('B','H')
    , callNumber := lookupTag fields ('C','K')
    , extensions := parseExtensions raw TAGS_ITEM_INFO }

structure FeePaidResponse where
  ok : Bool
  transactionDate : JStr
  institutionId : JStr
  patronBarcode : JStr
  transactionId : Option JStr
  screenMessage : Option JStr
  screenMessages : List JStr
  extensions : Option (List (Tag × JStr))
  deriving DecidableEq, Repr

/-- Command 38: Fee Paid Response. -/
def parseFeePaidResponse (raw : JStr) : Except JsError FeePaidResponse :=
  if !("38".data.isPrefixOf raw) then .error .unexpectedResponseCode
  else
    let fields := parseFields raw
    let multiFields := parseFieldsMulti raw
    .ok
    { ok := raw.get? 2 = some '1'
    , transactionDate := jsTrim (jsSubstring raw 3 21)
    , institutionId := orDefault (lookupTag fields ('A','O')) []
    , patronBarcode := orDefault (lookupTag fields ('A','A')) []
    , transactionId := lookupTag fields ('B','K')
    , screenMessage := lookupTag fields ('A','F')
    , screenMessages := (lookupMulti multiFields ('A','F')).getD []
    , extensions := parseExtensions raw TAGS_FEE_PAID }

structure PatronInformationResponse where
  patronBarcode : JStr
  patronName : JStr
  validPatron : Bool
  holdItemsCount : Option Int
  overdueItemsCount : Option Int
  chargedItemsCount : Option Int
  fineItemsCount : Option Int
  recallItemsCount : Option Int
  unavailHoldsCount : Option Int
  flags : PatronFlags
  holdItems : List JStr
  overdueItems : List JStr
  chargedItems : List JStr
  fineItems : List JStr
  recallItems : List JStr
  email : Option JStr
  phone : Option JStr
  homeAddress : Option JStr
  screenMessage : Option JStr
  screenMessages : List JStr
  extensions : Option (List (Tag × JStr))
  deriving DecidableEq, Repr

/-- `raw.substring(a, b).trim() || '0'`, the fixed-position count fields of
responses 64, 66 and 98. -/
def fixedCount (raw : JStr) (a b : Nat) : Option Int :=
  let t := jsTrim (jsSubstring raw a b)
  jsParseInt (if t.isEmpty then ['0'] else t)

/-- Command 64: Patron Information Response. -/
def parsePatronInformationResponse (raw : JStr) :
    Except JsError PatronInformationResponse :=
  if !("64".data.isPrefixOf raw) then .error .unexpectedResponseCode
  else
    let statusMask := jsSubstring raw 2 16
    let fields := parseFields raw
    let multiFields := parseFieldsMulti raw
    .ok
    { patronBarcode := orDefault (lookupTag fields ('A','A')) []
    , patronName := orDefault (lookupTag fields ('A','E')) "Unknown".data
    , validPatron := orDefault (lookupTag fields ('B','L')) ['N'] = ['Y']
    , holdItemsCount := fixedCount raw 37 41
    , overdueItemsCount := fixedCount raw 41 45
    , chargedItemsCount := fixedCount raw 45 49
    , fineItemsCount := fixedCount raw 49 53
    , recallItemsCount := fixedCount raw 53 57
    , unavailHoldsCount := fixedCount raw 57 61
    , flags := readPatronFlags statusMask
    , holdItems := (lookupMulti multiFields ('A','T')).getD []
    , overdueItems := (lookupMulti multiFields ('A','U')).getD []
    , chargedItems := (lookupMulti multiFields ('A','V')).getD []
    , fineItems := (lookupMulti multiFields ('B','U')).getD []
    , recallItems := (lookupMulti multiFields ('B','J')).getD []
    , email := lookupTag fields ('B','E')
    , phone := lookupTag fields ('B','F')
    , homeAddress := lookupTag fields ('B','D')
    , screenMessage := lookupTag fields ('A','F')
    , screenMessages := (lookupMulti multiFields ('A','F')).getD []
    , extensions := parseExtensions raw TAGS_PATRON_INFO }

structure HoldResponse where
  ok : Bool
  available : Bool
  transactionDate : JStr
  institutionId : JStr
  patronBarcode : JStr
  itemBarcode : Option JStr
  titleId : Option JStr
  expirationDate : Option JStr
  pickupLocation : Option JStr
  queuePosition : Option JStr
  screenMessage : Option JStr
  screenMessages : List JStr
  printLine : Option JStr
  extensions : Option (List (Tag × JStr))
  deriving DecidableEq, Repr

/-- Command 16: Hold Response. -/
def parseHoldResponse (raw : JStr) : Except JsError HoldResponse :=
  if !("16".data.isPrefixOf raw) then .error .unexpectedResponseCode
  else
    let fields := parseFields raw
    let multiFields := parseFieldsMulti raw
    .ok
    { ok := raw.get? 2 = some '1'
    , available := raw.get? 3 = some 'Y'
    , transactionDate := jsTrim (jsSubstring raw 4 22)
    , institutionId := orDefault (lookupTag fields ('A','O')) []
    , patronBarcode := orDefault (lookupTag fields ('A','A')) []
    , itemBarcode := lookupTag fields ('A','B')
    , titleId := lookupTag fields ('A','J')
    , expirationDate := lookupTag fields ('B','W')
    , pickupLocation := lookupTag fields ('B','S')
    , queuePosition := lookupTag fields ('M','N')
    , screenMessage := lookupTag fields ('A','F')
    , screenMessages := (lookupMulti multiFields ('A','F')).getD []
    , printLine := lookupTag fields ('A','G')
    , extensions := parseExtensions raw TAGS_HOLD }

structure RenewAllResponse where
  ok : Bool
  renewedCount : Option Int
  unrenewedCount : Option Int
  transactionDate : JStr
  institutionId : JStr
  patronBarcode : JStr
  renewedItems : List JStr
  unrenewedItems : List JStr
  screenMessage : Option JStr
  screenMessages : List JStr
  extensions : Option (List (Tag × JStr))
  deriving DecidableEq, Repr

/-- Command 66: Renew All Response. -/
def parseRenewAllResponse (raw : JStr) : Except JsError RenewAllResponse :=
  if !("66".data.isPrefixOf raw) then .error .unexpectedResponseCode
  else
    let fields := parseFields raw
    let multiFields := parseFieldsMulti raw
    .ok
    { ok := raw.get? 2 = some '1'
    , renewedCount := fixedCount raw 3 7
    , unrenewedCount := fixedCount raw 7 11
    , transactionDate := jsTrim (jsSubstring raw 11 29)
    , institutionId := orDefault (lookupTag fields ('A','O')) []
    , patronBarcode := orDefault (lookupTag fields ('A','A')) []
    , renewedItems := (lookupMulti multiFields ('B','M')).getD []
    , unrenewedItems := (lookupMulti multiFields ('B','N')).getD []
    , screenMessage := lookupTag fields ('A','F')
    , screenMessages := (lookupMulti multiFields ('A','F')).getD []
    , extensions := parseExtensions raw TAGS_RENEW_ALL }

structure EndSessionResponse where
  endSession : Bool
  transactionDate : JStr
  institutionId : JStr
  patronBarcode : JStr
  screenMessage : Option JStr
  screenMessages : List JStr
  printLine : Option JStr
  extensions : Option (List (Tag × JStr))
  deriving DecidableEq, Repr

/-- Command 36: End Patron Session Response. -/
def parseEndSessionResponse (raw : JStr) : Except JsError EndSessionResponse :=
  if !("36".data.isPrefixOf raw) then .error .unexpectedResponseCode
  else
    let fields := parseFields raw
    let multiFields := parseFieldsMulti raw
    .ok
    { endSession := raw.get? 2 = some 'Y'
    , transactionDate := jsTrim (jsSubstring raw 3 21)
    , institutionId := orDefault (lookupTag fields ('A','O')) []
    , patronBarcode := orDefault (lookupTag fields ('A','A')) []
    , screenMessage := lookupTag fields ('A','F')
    , screenMessages := (lookupMulti multiFields ('A','F')).getD []
    , printLine := lookupTag fields ('A','G')
    , extensions := parseExtensions raw TAGS_END_SESSION }

structure ACSStatusResponse where
  onlineStatus : Bool
  checkinOk : Bool
  checkoutOk : Bool
  acsRenewalPolicy : Bool
  statusUpdateOk : Bool
  offlineOk : Bool
  timeoutPeriod : Option Int
  retriesAllowed : Option Int
  dateTimeSync : JStr
  protocolVersion : JStr
  institutionId : JStr
  libraryName : Option JStr
  supportedMessages : Option JStr
  terminalLocation : Option JStr
  screenMessage : Option JStr
  extensions : Option (List (Tag × JStr))
  deriving DecidableEq, Repr

/-- Command 98: ACS Status Response. -/
def parseACSStatusResponse (raw : JStr) : Except JsError ACSStatusResponse :=
  if !("98".data.isPrefixOf raw) then .error .unexpectedResponseCode
  else
    let fields := parseFields raw
    .ok
    { onlineStatus := raw.get? 2 = some 'Y'
    , checkinOk := raw.get? 3 = some 'Y'
    , checkoutOk := raw.get? 4 = some 'Y'
    , acsRenewalPolicy := raw.get? 5 = some 'Y'
    , statusUpdateOk := raw.get? 6 = some 'Y'
    , offlineOk := raw.get? 7 = some 'Y'
    , timeoutPeriod := fixedCount raw 8 11
    , retriesAllowed := fixedCount raw 11 14
    , dateTimeSync := jsTrim (jsSubstring raw 14 32)
    , protocolVersion := jsTrim (jsSubstring raw 32 36)
    , institutionId := orDefault (lookupTag fields ('A','O')) []
    , libraryName := lookupTag fields ('A','M')
    , supportedMessages := lookupTag fields ('B','X')
    , terminalLocation := lookupTag fields ('A','N')
    , screenMessage := lookupTag fields ('A','F')
    , extensions := parseExtensions raw TAGS_ACS_STATUS }

structure ItemStatusUpdateResponse where
  securityMarker : Option Char
  transactionDate : JStr
  institutionId : JStr
  itemBarcode : JStr
  titleId : JStr
  screenMessage : Option JStr
  screenMessages : List JStr
  printLine : Option JStr
  extensions : Option (List (Tag × JStr))
  deriving DecidableEq, Repr

/-- Command 20: Item Status Update Response.  `securityMarker` is `raw[2]`,
which is `undefined` on a two-character input, hence `Option Char`. -/
def parseItemStatusUpdateResponse (raw : JStr) :
    Except JsError ItemStatusUpdateResponse :=
  if !("20".data.isPrefixOf raw) then .error .unexpectedResponseCode
  else
    let fields := parseFields raw
    let multiFields := parseFieldsMulti raw
    .ok
    { securityMarker := raw.get? 2
    , transactionDate := jsTrim (jsSubstring raw 3 21)
    , institutionId := orDefault (lookupTag fields ('A','O')) []
    , itemBarcode := orDefault (lookupTag fields ('A','B')) []
    , titleId := orDefault (lookupTag fields ('A','J')) []
    , screenMessage := lookupTag fields ('A','F')
    , screenMessages := (lookupMulti multiFields ('A','F')).getD []
    , printLine := lookupTag fields ('A','G')
    , extensions := parseExtensions raw TAGS_ITEM_STATUS_UPDATE }

structure PatronEnableResponse where
  patronBarcode : JStr
  patronName : JStr
  validPatron : Bool
  holdItemsCount : Option Int
  overdueItemsCount : Option Int
  chargedItemsCount : Option Int
  recallItemsCount : Option Int
  unavailHoldsCount : Option Int
  flags : PatronFlags
  screenMessages : List JStr
  extensions : Option (List (Tag × JStr))
  deriving DecidableEq, Repr

/-- Command 26: Patron Enable Response (same layout as 24, and it shares the
Patron Status known-tag set). -/
def parsePatronEnableResponse (raw : JStr) :
    Except JsError PatronEnableResponse :=
  if !("26".data.isPrefixOf raw) then .error .unexpectedResponseCode
  else
    let statusMask := jsSubstring raw 2 16
    let fields := parseFields raw
    let multiFields := parseFieldsMulti raw
    .ok
    { patronBarcode := orDefault (lookupTag fields ('A','A')) []
    , patronName := orDefault (lookupTag fields ('A','E')) "Unknown".data
    , validPatron := orDefault (lookupTag fields ('B','L')) ['N'] = ['Y']
    , holdItemsCount := jsParseInt (orDefault (lookupTag fields ('B','Z')) ['0'])
    , overdueItemsCount := jsParseInt (orDefault (lookupTag fields ('C','A')) ['0'])
    , chargedItemsCount := jsParseInt (orDefault (lookupTag fields ('C','B')) ['0'])
    , recallItemsCount := jsParseInt (orDefault (lookupTag fields ('C','D')) ['0'])
    , unavailHoldsCount := jsParseInt (orDefault (lookupTag fields ('A','S')) ['0'])
    , flags := readPatronFlags statusMask
    , screenMessages := (lookupMulti multiFields ('A','F')).getD []
    , extensions := parseExtensions raw TAGS_PATRON_STATUS }

/-!
## Circuit breaker (`src/services/SipConnectionManager.ts`, `src/types/index.ts`)

`Date.now()` is passed in explicitly as `now`.  Only the breaker-record
manipulation is modelled; socket and login I/O is orthogonal to the breaker
state machine.
-/

inductive CircuitState where
  | CLOSED : CircuitState
  | OPEN : CircuitState
  | HALF_OPEN : CircuitState
  deriving DecidableEq, Repr

structure CircuitBreaker where
  state : CircuitState
  failureCount : Nat
  lastFailureAt : Option Nat
  nextRetryAt : Option Nat
  backoffIndex : Nat
  halfOpenLocked : Bool
  deriving DecidableEq, Repr

/-- The production backoff schedule from `src/types/index.ts`
(under `NODE_ENV=test` it is `[200, 400, 600]` instead; no claim depends on
the values). -/
def BACKOFF_SCHEDULE : List Nat := [5000, 10000, 20000, 40000, 60000]

def FAILURE_THRESHOLD : Nat := 3

/-- The breaker record installed per branch by the constructor (and by
`reinitialize`). -/
def initBreaker : CircuitBreaker :=
  { state := .CLOSED
  , failureCount := 0
  , lastFailureAt := none
  , nextRetryAt := none
  , backoffIndex := 0
  , halfOpenLocked := false }

/-- `recordSuccess(branchId)`. -/
def recordSuccess (b : CircuitBreaker) : CircuitBreaker :=
  { b with
    state := .CLOSED
    failureCount := 0
    backoffIndex := 0
    nextRetryAt := none
    halfOpenLocked := false }

/-- `BACKOFF_SCHEDULE[i] || BACKOFF_SCHEDULE[BACKOFF_SCHEDULE.length - 1]`:
an out-of-range index reads `undefined`, which is falsy, so the last slot is
used. -/
def backoffAt (i : Nat) : Nat :=
  match BACKOFF_SCHEDULE.get? i with
  | some v => v
  | none => (BACKOFF_SCHEDULE.get? (BACKOFF_SCHEDULE.length - 1)).getD 0

/-- `recordFailure(branchId)` at time `now` (client cleanup omitted: it does
not touch the breaker record). -/
def recordFailure (b : CircuitBreaker) (now : Nat) : CircuitBreaker :=
  let b1 :=
    { b with
      failureCount := b.failureCount + 1
      lastFailureAt := some now
      halfOpenLocked := false }
  if FAILURE_THRESHOLD ≤ b1.failureCount ∨ b1.state = .HALF_OPEN then
    let backoff := backoffAt b1.backoffIndex
    let b2 := { b1 with state := .OPEN, nextRetryAt := some (now + backoff) }
    if b2.backoffIndex < BACKOFF_SCHEDULE.length - 1 then
      { b2 with backoffIndex := b2.backoffIndex + 1 }
    else b2
  else b1

/-- JS truthiness of `breaker.nextRetryAt` combined with
`Date.now() >= breaker.nextRetryAt`: `null` and the timestamp `0` are falsy. -/
def retryDue (nextRetryAt : Option Nat) (now : Nat) : Bool :=
  match nextRetryAt with
  | some t => 0 < t ∧ t ≤ now
  | none => false

/-- The circuit-breaker gate at the top of `getClient(branchId)` at time
`now`: the OPEN→HALF_OPEN transition, the OPEN rejection, and the HALF_OPEN
single-probe lock.  Returns the updated breaker when the call may proceed. -/
def getClientGate (b : CircuitBreaker) (now : Nat) :
    Except JsError CircuitBreaker :=
  let b1 :=
    if b.state = .OPEN ∧ retryDue b.nextRetryAt now then
      { b with state := .HALF_OPEN, halfOpenLocked := false }
    else b
  if b1.state = .OPEN then .error .circuitOpen
  else if b1.state = .HALF_OPEN then
    if b1.halfOpenLocked then .error .halfOpenProbe
    else .ok { b1 with halfOpenLocked := true }
  else .ok b1

/-!
## HMAC-SHA-256 model of `node:crypto`

`MaskingService.mask` delegates hashing to `crypto.createHmac('sha256', key)`.
That library is outside the repository, so it is modelled here directly from
its contract: HMAC (RFC 2104) over SHA-256 (FIPS 180-4), with the masked
strings (ASCII) encoded byte-per-character. -/

/-- Truncate to a 32-bit word. -/
def w32 (n : Nat) : Nat := n % 4294967296

/-- 32-bit right rotation. -/
def rotr (x n : Nat) : Nat := w32 ((x >>> n) ||| (x <<< (32 - n)))

def shaCh (x y z : Nat) : Nat := (x &&& y) ^^^ ((x ^^^ 4294967295) &&& z)

def shaMaj (x y z : Nat) : Nat := (x &&& y) ^^^ (x &&& z) ^^^ (y &&& z)

def shaS0 (x : Nat) : Nat := rotr x 2 ^^^ rotr x 13 ^^^ rotr x 22

def shaS1 (x : Nat) : Nat := rotr x 6 ^^^ rotr x 11 ^^^ rotr x 25

def shaG0 (x : Nat) : Nat := rotr x 7 ^^^ rotr x 18 ^^^ (x >>> 3)

def shaG1 (x : Nat) : Nat := rotr x 17 ^^^ rotr x 19 ^^^ (x >>> 10)

/-- The 64 SHA-256 round constants. -/
def shaK : List Nat :=
  [1116352408, 1899447441, 3049323471, 3921009573, 961987163, 1508970993,
   2453635748, 2870763221, 3624381080, 310598401, 607225278, 1426881987,
   1925078388, 2162078206, 2614888103, 3248222580, 3835390401, 4022224774,
   264347078, 604807628, 770255983, 1249150122, 1555081692, 1996064986,
   2554220882, 2821834349, 2952996808, 3210313671, 3336571891, 3584528711,
   113926993, 338241895, 666307205, 773529912, 1294757372, 1396182291,
   1695183700, 1986661051, 2177026350, 2456956037, 2730485921, 2820302411,
   3259730800, 3345764771, 3516065817, 3600352804, 4094571909, 275423344,
   430227734, 506948616, 659060556, 883997877, 958139571, 1322822218,
   1537002063, 1747873779, 1955562222, 2024104815, 2227730452, 2361852424,
   2428436474, 2756734187, 3204031479, 3329325298]

/-- The SHA-256 initial hash value. -/
def shaH0 : List Nat :=
  [1779033703, 3144134277, 1013904242, 2773480762,
   1359893119, 2600822924, 528734635, 1541459225]

/-- Big-endian 8-byte rendering of a bit length. -/
def be64 (n : Nat) : List Nat :=
  [n >>> 56 % 256, n >>> 48 % 256, n >>> 40 % 256, n >>> 32 % 256,
   n >>> 24 % 256, n >>> 16 % 256, n >>> 8 % 256, n % 256]

/-- SHA-256 padding: `0x80`, zeros to 56 mod 64, then the bit length. -/
def sha256Pad (msg : List Nat) : List Nat :=
  let zeros := (64 - (msg.length + 9) % 64) % 64
  msg ++ [128] ++ List.replicate zeros 0 ++ be64 (msg.length * 8)

/-- Big-endian 4-byte groups to 32-bit words. -/
def bytesToWords : List Nat → List Nat
  | a :: b :: c :: d :: rest =>
    (((a * 256 + b) * 256 + c) * 256 + d) :: bytesToWords rest
  | _ => []

/-- Message-schedule extension of a 16-word block to 64 words. -/
def extendW (block : List Nat) : List Nat :=
  (List.range 48).foldl
    (fun w _ =>
      let t := w.length
      w ++ [w32 (shaG1 (w.getD (t - 2) 0) + w.getD (t - 7) 0 +
                 shaG0 (w.getD (t - 15) 0) + w.getD (t - 16) 0)])
    block

/-- One SHA-256 compression of a 16-word block into an 8-word state. -/
def compressBlock (h : List Nat) (block : List Nat) : List Nat :=
  let w := extendW block
  let final := (List.range 64).foldl
    (fun s t =>
      let t1 := w32 (s.getD 7 0 + shaS1 (s.getD 4 0) +
        shaCh (s.getD 4 0) (s.getD 5 0) (s.getD 6 0) + shaK.getD t 0 + w.getD t 0)
      let t2 := w32 (shaS0 (s.getD 0 0) + shaMaj (s.getD 0 0) (s.getD 1 0) (s.getD 2 0))
      [w32 (t1 + t2), s.getD 0 0, s.getD 1 0, s.getD 2 0,
       w32 (s.getD 3 0 + t1), s.getD 4 0, s.getD 5 0, s.getD 6 0])
    h
  (List.range 8).map (fun i => w32 (h.getD i 0 + final.getD i 0))

/-- 16-word (64-byte) blocks of the padded message's word list; padding
makes the word count a multiple of 16. -/
def blocks16 : List Nat → List (List Nat)
  | w0 :: w1 :: w2 :: w3 :: w4 :: w5 :: w6 :: w7 ::
    w8 :: w9 :: w10 :: w11 :: w12 :: w13 :: w14 :: w15 :: rest =>
    [w0, w1, w2, w3, w4, w5, w6, w7, w8, w9, w10, w11, w12, w13, w14, w15] ::
      blocks16 rest
  | _ => []

/-- SHA-256 digest (32 bytes) of a byte string. -/
def sha256 (msg : List Nat) : List Nat :=
  let state := (blocks16 (bytesToWords (sha256Pad msg))).foldl compressBlock shaH0
  state.foldr (fun word acc =>
    [word >>> 24 % 256, word >>> 16 % 256, word >>> 8 % 256, word % 256] ++ acc) []

/-- HMAC-SHA-256 (RFC 2104): hash long keys, zero-pad to the 64-byte block,
then the nested ipad/opad hashes. -/
def hmacSha256 (key msg : List Nat) : List Nat :=
  let k0 := if 64 < key.length then sha256 key else key
  let kPad := k0 ++ List.replicate (64 - k0.length) 0
  let inner := sha256 ((kPad.map (fun b => b ^^^ 54)) ++ msg)
  sha256 ((kPad.map (fun b => b ^^^ 92)) ++ inner)

/-- Lowercase hex digit. -/
def hexDigitLower (n : Nat) : Char :=
  if n < 10 then Char.ofNat (48 + n) else Char.ofNat (87 + n)

/-- `digest('hex')`: lowercase hex of a byte string. -/
def hexLower (bytes : List Nat) : JStr :=
  bytes.foldr (fun b acc => hexDigitLower (b / 16 % 16) :: hexDigitLower (b % 16) :: acc) []

/-- Byte encoding of the ASCII strings the masking service hashes. -/
def asciiBytes (s : JStr) : List Nat := s.map Char.toNat

/-!
## Masking service (`src/services/MaskingService.ts`)

The master key `process.env.GIGAFLAIR_MASTER_KEY` is passed explicitly as
an `Option JStr`.
-/

/-- `MaskingService.mask(data)`: empty (falsy) input is returned unchanged
before the key lookup; with no key configured a non-empty input throws;
otherwise `"MASKED_" + hmacSha256(key, data).hex().substring(0, 16)`. -/
def mask (masterKey : Option JStr) (data : JStr) : Except JsError JStr :=
  if data.isEmpty then .ok data
  else
    match masterKey with
    | none => .error .masterKeyMissing
    | some key =>
      .ok ("MASKED_".data ++ (hexLower (hmacSha256 (asciiBytes key) (asciiBytes data))).take 16)

mutual

/-- JSON-like payload values handled by `maskPayload`, as a mutual inductive
(so that the recursive masking is structurally recursive and computable by
the kernel): a value is a primitive, an array of values, or an object whose
entries are key/value pairs in insertion order. -/
inductive JsValue where
  | vStr : JStr → JsValue
  | vNum : Int → JsValue
  | vBool : Bool → JsValue
  | vNull : JsValue
  | vArr : JsList → JsValue
  | vObj : JsEntries → JsValue

inductive JsList where
  | nil : JsList
  | cons : JsValue → JsList → JsList

inductive JsEntries where
  | nil : JsEntries
  | cons : JStr → JsValue → JsEntries → JsEntries

end

/-- `key.toLowerCase().includes('password') || ...includes('pin') ||
key === 'CQ' || key === 'CO'`. -/
def isPasswordKey (k : JStr) : Bool :=
  containsSub (jsLower k) "password".data || containsSub (jsLower k) "pin".data ||
  k = "CQ".data || k = "CO".data

/-- The sensitive-PII key test of `maskPayload`. -/
def isPiiKey (k : JStr) : Bool :=
  containsSub (jsLower k) "patronidentifier".data ||
  containsSub (jsLower k) "patronbarcode".data ||
  containsSub (jsLower k) "itemidentifier".data ||
  containsSub (jsLower k) "itembarcode".data ||
  containsSub (jsLower k) "personalname".data ||
  k = "AA".data || k = "AB".data || k = "AE".data

mutual

/-- `MaskingService.maskPayload(payload)` with the master key passed
explicitly.  In the source, the `if (!payload) return payload` guard and the
final `return payload` both return primitives unchanged (arrays and objects
are always truthy in JS), so only arrays and objects are transformed. -/
def maskPayload (masterKey : Option JStr) : JsValue → Except JsError JsValue
  | .vArr items => (maskPayloadList masterKey items).map .vArr
  | .vObj entries => (maskPayloadEntries masterKey entries).map .vObj
  | other => .ok other

/-- `payload.map(item => this.maskPayload(item))`. -/
def maskPayloadList (masterKey : Option JStr) :
    JsList → Except JsError JsList
  | .nil => .ok .nil
  | .cons v rest => do
    let m ← maskPayload masterKey v
    let ms ← maskPayloadList masterKey rest
    .ok (.cons m ms)

/-- The `for (const [key, value] of Object.entries(payload))` loop. -/
def maskPayloadEntries (masterKey : Option JStr) :
    JsEntries → Except JsError JsEntries
  | .nil => .ok .nil
  | .cons k v rest => do
    let mv ←
      if isPasswordKey k then
        .ok (match v with
             | .vStr _ => .vStr ("********".data)
             | other => other)
      else if isPiiKey k then
        match v with
        | .vStr s => (mask masterKey s).map .vStr
        | other => .ok other
      else maskPayload masterKey v
    let ms ← maskPayloadEntries masterKey rest
    .ok (.cons k mv ms)

end

/-- First value under a key in an object's entries, when it is a string. -/
def entriesStr : JsEntries → JStr → Option JStr
  | .nil, _ => none
  | .cons k v rest, key =>
    if k = key then
      match v with
      | .vStr s => some s
      | _ => none
    else entriesStr rest key

/-- String value of an object payload's key, if any. -/
def objStr (v : JsValue) (key : JStr) : Option JStr :=
  match v with
  | .vObj es => entriesStr es key
  | _ => none

/-- String value of a key in a (successful) `maskPayload` result. -/
def resultField (r : Except JsError JsValue) (key : JStr) : Option JStr :=
  match r with
  | .ok v => objStr v key
  | .error _ => none

/-!
## Auxiliary facts about hex digits and the checksum value
-/

/-- Spec-side numeric value of a hex digit character (either case). -/
def hexCharVal (c : Char) : Nat :=
  if c.toNat ≤ 57 then c.toNat - 48
  else if c.toNat ≤ 70 then c.toNat - 55
  else c.toNat - 87

/-- Spec-side numeric value of a big-endian hex string. -/
def specHexVal (s : JStr) : Nat :=
  s.foldl (fun acc c => acc * 16 + hexCharVal c) 0

/-- Uppercase hex digits only: the alphabet `0-9A-F` the spec requires of
outbound checksums. -/
def isUpperHexDigit (c : Char) : Bool :=
  ('0' ≤ c ∧ c ≤ '9') ∨ ('A' ≤ c ∧ c ≤ 'F')

theorem isHex_hexDigitUpper (k : Nat) (h : k < 16) :
    isHexDigitChar (hexDigitUpper k) = true := by
  interval_cases k <;> decide

theorem isUpperHex_hexDigitUpper (k : Nat) (h : k < 16) :
    isUpperHexDigit (hexDigitUpper k) = true := by
  interval_cases k <;> decide

theorem asciiUpper_hexDigitUpper (k : Nat) (h : k < 16) :
    asciiUpper (hexDigitUpper k) = hexDigitUpper k := by
  interval_cases k <;> decide

theorem hexCharVal_hexDigitUpper (k : Nat) (h : k < 16) :
    hexCharVal (hexDigitUpper k) = k := by
  interval_cases k <;> decide

theorem specHexVal_toHex4 (n : Nat) (h : n < 65536) :
    specHexVal (toHex4 n) = n := by
  have h1 : n / 4096 % 16 < 16 := Nat.mod_lt _ (by norm_num)
  have h2 : n / 256 % 16 < 16 := Nat.mod_lt _ (by norm_num)
  have h3 : n / 16 % 16 < 16 := Nat.mod_lt _ (by norm_num)
  have h4 : n % 16 < 16 := Nat.mod_lt _ (by norm_num)
  simp only [toHex4, specHexVal, List.foldl, hexCharVal_hexDigitUpper _ h1,
    hexCharVal_hexDigitUpper _ h2, hexCharVal_hexDigitUpper _ h3,
    hexCharVal_hexDigitUpper _ h4]
  omega

theorem checksumVal_lt (s : JStr) : checksumVal s < 65536 := by
  unfold checksumVal
  exact Nat.mod_lt _ (by norm_num)

theorem natDec_digit (seq : Nat) (h : seq ≤ 9) :
    natDec seq = [Char.ofNat (48 + seq)] := by
  unfold natDec natDecAux
  rw [if_pos (by omega)]

/-- C7 core: a frame trailer of the shape produced by `appendChecksum`
passes `verifyChecksum`. -/
theorem verify_trailer_frame (body : JStr) :
    verifyChecksum (body ++ ['A', 'Z'] ++ calculateChecksum (body ++ ['A', 'Z']) ++ ['\r']) =
      Except.ok true := by
  have h1 : checksumVal (body ++ ['A', 'Z']) / 4096 % 16 < 16 := Nat.mod_lt _ (by norm_num)
  have h2 : checksumVal (body ++ ['A', 'Z']) / 256 % 16 < 16 := Nat.mod_lt _ (by norm_num)
  have h3 : checksumVal (body ++ ['A', 'Z']) / 16 % 16 < 16 := Nat.mod_lt _ (by norm_num)
  have h4 : checksumVal (body ++ ['A', 'Z']) % 16 < 16 := Nat.mod_lt _ (by norm_num)
  simp only [verifyChecksum, calculateChecksum, toHex4, List.reverse_append,
    List.reverse_cons, List.reverse_nil, List.nil_append, List.cons_append,
    List.append_assoc, List.append_nil, stripCRrev, splitTrailerRev,
    List.reverse_reverse]
  simp [isHex_hexDigitUpper _ h1, isHex_hexDigitUpper _ h2,
    isHex_hexDigitUpper _ h3, isHex_hexDigitUpper _ h4,
    asciiUpper_hexDigitUpper _ h1, asciiUpper_hexDigitUpper _ h2,
    asciiUpper_hexDigitUpper _ h3, asciiUpper_hexDigitUpper _ h4]

/-- C1 core: any frame produced by `appendChecksum` with an in-range
sequence number passes `verifyChecksum`. -/
theorem appendChecksum_verifies (msg : JStr) (seq : Nat) (h : seq ≤ 9) :
    (appendChecksum msg seq).bind verifyChecksum = Except.ok true := by
  simp only [appendChecksum, if_neg (by omega : ¬ seq > 9)]
  simp only [Except.bind]
  have := verify_trailer_frame (msg ++ ['A', 'Y'] ++ (natDec seq).take 1)
  simpa [List.append_assoc] using this

/-- C7: `calculateChecksum` sums the message's character codes, negates the
sum modulo 65,536 and renders the 16-bit result as four uppercase hex
digits; `appendChecksum(body, seq)` for `seq` in 0–9 returns
`body + AY + <seq digit> + AZ + <hex4> + \r` with the hex computed over
`body + AY + <seq digit> + AZ`; and `appendChecksum` with `seq > 9` fails
with the invalid-sequence error. -/
theorem c7_checksum_codec :
    (∀ msg : JStr,
      (calculateChecksum msg).length = 4 ∧
      (calculateChecksum msg).all isUpperHexDigit = true ∧
      specHexVal (calculateChecksum msg) < 65536 ∧
      (sumCodes msg + specHexVal (calculateChecksum msg)) % 65536 = 0) ∧
    (∀ (body : JStr) (seq : Nat), seq ≤ 9 →
      appendChecksum body seq =
        Except.ok (body ++ ['A', 'Y'] ++ [Char.ofNat (48 + seq)] ++ ['A', 'Z'] ++
          calculateChecksum
            (body ++ ['A', 'Y'] ++ [Char.ofNat (48 + seq)] ++ ['A', 'Z']) ++
          ['\r'])) ∧
    (∀ (body : JStr) (seq : Nat), 9 < seq →
      appendChecksum body seq = Except.error JsError.invalidSequence) := by
  refine ⟨fun msg => ?_, fun body seq h => ?_, fun body seq h => ?_⟩
  · have h1 : checksumVal msg / 4096 % 16 < 16 := Nat.mod_lt _ (by norm_num)
    have h2 : checksumVal msg / 256 % 16 < 16 := Nat.mod_lt _ (by norm_num)
    have h3 : checksumVal msg / 16 % 16 < 16 := Nat.mod_lt _ (by norm_num)
    have h4 : checksumVal msg % 16 < 16 := Nat.mod_lt _ (by norm_num)
    refine ⟨by simp [calculateChecksum, toHex4], ?_, ?_, ?_⟩
    · simp [calculateChecksum, toHex4, isUpperHex_hexDigitUpper _ h1,
        isUpperHex_hexDigitUpper _ h2, isUpperHex_hexDigitUpper _ h3,
        isUpperHex_hexDigitUpper _ h4]
    · rw [calculateChecksum, specHexVal_toHex4 _ (checksumVal_lt msg)]
      exact checksumVal_lt msg
    · rw [calculateChecksum, specHexVal_toHex4 _ (checksumVal_lt msg)]
      unfold checksumVal
      omega
  · simp only [appendChecksum, if_neg (by omega : ¬ seq > 9), natDec_digit seq h,
      List.take, List.append_assoc, List.cons_append, List.nil_append]
  · simp only [appendChecksum, if_pos (by omega : seq > 9)]

theorem c7_checksum_codec_witness :
    appendChecksum ("hi".data) 3 =
      Except.ok ("hi".data ++ ['A', 'Y'] ++ [Char.ofNat (48 + 3)] ++ ['A', 'Z'] ++
        calculateChecksum
          ("hi".data ++ ['A', 'Y'] ++ [Char.ofNat (48 + 3)] ++ ['A', 'Z']) ++
        ['\r']) ∧
    appendChecksum ("hi".data) 10 = Except.error JsError.invalidSequence :=
  ⟨c7_checksum_codec.2.1 ("hi".data) 3 (by decide),
   c7_checksum_codec.2.2 ("hi".data) 10 (by decide)⟩

/-- C1: for every supported command formatter, all field inputs and every
sequence number in 0–9, the produced frame passes `verifyChecksum`. -/
theorem c1_format_verify :
    (∀ ts barcode inst lang seq, seq ≤ 9 →
      (formatPatronStatusRequest ts barcode inst seq lang).bind verifyChecksum =
        Except.ok true) ∧
    (∀ uid pwd loc seq, seq ≤ 9 →
      (formatLoginRequest uid pwd loc seq).bind verifyChecksum = Except.ok true) ∧
    (∀ ts p i inst seq pin, seq ≤ 9 →
      (formatCheckoutRequest ts p i inst seq pin).bind verifyChecksum =
        Except.ok true) ∧
    (∀ ts i inst seq, seq ≤ 9 →
      (formatCheckinRequest ts i inst seq).bind verifyChecksum = Except.ok true) ∧
    (∀ ts i inst seq, seq ≤ 9 →
      (formatItemInformationRequest ts i inst seq).bind verifyChecksum =
        Except.ok true) ∧
    (∀ ts p i inst seq pin, seq ≤ 9 →
      (formatRenewRequest ts p i inst seq pin).bind verifyChecksum =
        Except.ok true) ∧
    (∀ ts p f a inst seq ft pt ct, seq ≤ 9 →
      (formatFeePaidRequest ts p f a inst seq ft pt ct).bind verifyChecksum =
        Except.ok true) ∧
    (∀ ts p summary s e inst seq lang, seq ≤ 9 →
      (formatPatronInformationRequest ts p summary s e inst seq lang).bind
        verifyChecksum = Except.ok true) ∧
    (∀ ts m p i ex pick inst seq title, seq ≤ 9 →
      (formatHoldRequest ts m p i ex pick inst seq title).bind verifyChecksum =
        Except.ok true) ∧
    (∀ ts p inst seq, seq ≤ 9 →
      (formatRenewAllRequest ts p inst seq).bind verifyChecksum = Except.ok true) ∧
    (∀ ts p inst seq, seq ≤ 9 →
      (formatEndSessionRequest ts p inst seq).bind verifyChecksum =
        Except.ok true) ∧
    (∀ seq, seq ≤ 9 →
      (formatSCStatusRequest seq).bind verifyChecksum = Except.ok true) ∧
    (∀ ts p cr bm inst seq, seq ≤ 9 →
      (formatBlockPatronRequest ts p cr bm inst seq).bind verifyChecksum =
        Except.ok true) ∧
    (∀ ts i sm inst seq, seq ≤ 9 →
      (formatItemStatusUpdateRequest ts i sm inst seq).bind verifyChecksum =
        Except.ok true) ∧
    (∀ ts p pin inst seq, seq ≤ 9 →
      (formatPatronEnableRequest ts p pin inst seq).bind verifyChecksum =
        Except.ok true) := by
  refine ⟨?_, ?_, ?_, ?_, ?_, ?_, ?_, ?_, ?_, ?_, ?_, ?_, ?_, ?_, ?_⟩ <;>
    intros <;> apply appendChecksum_verifies <;> assumption

theorem c1_format_verify_witness :
    (formatPatronStatusRequest ("20260222    120000".data) ("P12345".data)
      ("GigaFlair".data) 0 ("001".data)).bind verifyChecksum = Except.ok true :=
  c1_format_verify.1 ("20260222    120000".data) ("P12345".data)
    ("GigaFlair".data) ("001".data) 0 (by decide)

/-!
## Sanitizer claims
-/

/-- Spec-side description of a byte removed by the sanitizer: `|`, carriage
return, line feed, or any byte in 0x00–0x1F. -/
def specSipBad (c : Char) : Bool :=
  c = '|' ∨ c = '\r' ∨ c = '\n' ∨ c.toNat ≤ 31

theorem isSipUnsafe_eq_specSipBad (c : Char) : isSipUnsafe c = specSipBad c := by
  simp only [isSipUnsafe, specSipBad]
  rw [decide_eq_decide]
  constructor
  · rintro (h | h)
    · exact Or.inl h
    · exact Or.inr (Or.inr (Or.inr h))
  · rintro (h | h | h | h)
    · exact Or.inl h
    · subst h; exact Or.inr (by decide)
    · subst h; exact Or.inr (by decide)
    · exact Or.inr h

/-- C8: sanitization removes exactly the bytes `|`, CR, LF and 0x00–0x1F,
preserving all other bytes in order; it is idempotent; and its output
contains none of the removed bytes. -/
theorem c8_sanitize :
    ∀ x : JStr,
      sanitizeSipField x = x.filter (fun c => !specSipBad c) ∧
      sanitizeSipField (sanitizeSipField x) = sanitizeSipField x ∧
      ∀ c ∈ sanitizeSipField x, specSipBad c = false := by
  intro x
  have hpt : ∀ c : Char, (!isSipUnsafe c) = (!specSipBad c) := fun c => by
    rw [isSipUnsafe_eq_specSipBad]
  refine ⟨?_, ?_, ?_⟩
  · unfold sanitizeSipField
    exact List.filter_congr (fun c _ => hpt c)
  · unfold sanitizeSipField
    rw [List.filter_filter]
    exact List.filter_congr (fun c _ => by rw [Bool.and_self])
  · intro c hc
    have := (List.mem_filter.mp hc).2
    rw [hpt c] at this
    simpa using this

theorem c8_sanitize_witness :
    sanitizeSipField (sanitizeSipField ("a|b\r\n\x01c".data)) =
      sanitizeSipField ("a|b\r\n\x01c".data) ∧
    specSipBad 'a' = false :=
  ⟨(c8_sanitize ("a|b\r\n\x01c".data)).2.1,
   (c8_sanitize ("a|b\r\n\x01c".data)).2.2 'a' (by decide)⟩

/-!
## Verification claims (C3)
-/

theorem stripCRrev_reverse (s : JStr) :
    stripCRrev s.reverse = (dropTrailingCR s).reverse := by
  cases h : s.reverse with
  | nil =>
    have hs : s = [] := by simpa using congrArg List.reverse h
    subst hs
    simp [stripCRrev, dropTrailingCR]
  | cons c r =>
    have hs : s = r.reverse ++ [c] := by
      have := congrArg List.reverse h
      simpa using this
    subst hs
    by_cases hc : c = '\r'
    · subst hc
      simp [stripCRrev, dropTrailingCR, List.getLast?_concat, List.dropLast_concat]
    · simp [stripCRrev, dropTrailingCR, List.getLast?_concat, hc]

/-- C3 (corrected form): `verifyChecksum` never throws; it returns exactly
the conjunction "the frame ends (ignoring an optional trailing CR) with `AZ`
plus four hex digits" and "the checksum recomputed over the prefix up to and
including `AZ` equals the trailing hex, case-insensitively".  In particular
it returns `false` — it does not raise `MalformedTrailer` — on a malformed
trailer. -/
theorem c3_verify_spec (s : JStr) :
    verifyChecksum s = Except.ok (specTrailerOk s && specChecksumMatches s) := by
  have hkey : stripCRrev s.reverse = (dropTrailingCR s).reverse :=
    stripCRrev_reverse s
  rcases hcore : (dropTrailingCR s).reverse with _ | ⟨x0, _ | ⟨x1, _ | ⟨x2, _ | ⟨x3, _ | ⟨x4, _ | ⟨x5, rest⟩⟩⟩⟩⟩⟩ <;>
    rw [hcore] at hkey <;>
    have ht := congrArg List.reverse hcore <;>
    rw [List.reverse_reverse] at ht
  · rw [verifyChecksum, hkey]
    simp [splitTrailerRev, specTrailerOk, ht]
  · rw [verifyChecksum, hkey]
    simp [splitTrailerRev, specTrailerOk, ht]
  · rw [verifyChecksum, hkey]
    simp [splitTrailerRev, specTrailerOk, ht]
  · rw [verifyChecksum, hkey]
    simp [splitTrailerRev, specTrailerOk, ht]
  · rw [verifyChecksum, hkey]
    simp [splitTrailerRev, specTrailerOk, ht]
  · rw [verifyChecksum, hkey]
    simp [splitTrailerRev, specTrailerOk, ht]
  · rw [verifyChecksum, hkey]
    simp only [splitTrailerRev]
    have htt : dropTrailingCR s = rest.reverse ++ [x5, x4, x3, x2, x1, x0] := by
      rw [ht]; simp
    have hd6 : List.drop ((rest.reverse ++ [x5, x4, x3, x2, x1, x0] : JStr).length - 6)
        (rest.reverse ++ [x5, x4, x3, x2, x1, x0]) = [x5, x4, x3, x2, x1, x0] :=
      List.drop_left' (by simp)
    have hsplit : (rest.reverse ++ [x5, x4, x3, x2, x1, x0] : JStr) =
        (rest.reverse ++ [x5, x4]) ++ [x3, x2, x1, x0] := by simp
    have hd4 : List.drop ((rest.reverse ++ [x5, x4, x3, x2, x1, x0] : JStr).length - 4)
        (rest.reverse ++ [x5, x4, x3, x2, x1, x0]) = [x3, x2, x1, x0] := by
      rw [hsplit]
      exact List.drop_left' (by simp)
    have ht4 : List.take ((rest.reverse ++ [x5, x4, x3, x2, x1, x0] : JStr).length - 4)
        (rest.reverse ++ [x5, x4, x3, x2, x1, x0]) = rest.reverse ++ [x5, x4] := by
      rw [hsplit]
      exact List.take_left' (by simp)
    by_cases hz : x4 = 'Z' ∧ x5 = 'A'
    · rw [if_pos hz]
      obtain ⟨hz4, hz5⟩ := hz
      subst hz4; subst hz5
      simp only []
      by_cases hhex : isHexDigitChar x3 = true ∧ isHexDigitChar x2 = true ∧
          isHexDigitChar x1 = true ∧ isHexDigitChar x0 = true
      · rw [if_pos hhex]
        have hTrail : specTrailerOk s = true := by
          simp only [specTrailerOk, htt]
          refine decide_eq_true_iff.mpr ⟨?_, ?_, ?_⟩
          · simp only [List.length_append, List.length_reverse, List.length_cons,
              List.length_nil]
            omega
          · rw [hd6]
            rfl
          · rw [hd4]
            simp [hhex.1, hhex.2.1, hhex.2.2.1, hhex.2.2.2]
        have hMatch : specChecksumMatches s =
            decide (calculateChecksum (('Z' :: 'A' :: rest).reverse) =
              List.map asciiUpper [x3, x2, x1, x0]) := by
          simp only [specChecksumMatches, htt]
          rw [ht4, hd4]
          rw [show (('Z' :: 'A' :: rest : JStr)).reverse = rest.reverse ++ ['A', 'Z'] from by simp]
        rw [hTrail, hMatch]
        simp
      · rw [if_neg hhex]
        have hTrail : specTrailerOk s = false := by
          simp only [specTrailerOk, htt]
          refine decide_eq_false_iff_not.mpr ?_
          rintro ⟨-, -, hall⟩
          rw [hd4] at hall
          simp only [List.all_cons, List.all_nil, Bool.and_true, Bool.and_eq_true] at hall
          exact hhex ⟨hall.1, hall.2.1, hall.2.2⟩
        rw [hTrail]
        simp
    · rw [if_neg hz]
      have hTrail : specTrailerOk s = false := by
        simp only [specTrailerOk, htt]
        refine decide_eq_false_iff_not.mpr ?_
        rintro ⟨-, htake, -⟩
        rw [hd6] at htake
        simp only [List.take, List.cons.injEq, and_true] at htake
        exact hz ⟨htake.2, htake.1⟩
      rw [hTrail]
      simp

/-- C3 counterexample: on a frame with no well-formed trailer the code
returns `Except.ok false`; it does not fail with `MalformedTrailer` as the
claim states. -/
theorem c3_counterexample :
    verifyChecksum ("hello".data) = Except.ok false ∧
    verifyChecksum ("hello".data) ≠ Except.error JsError.malformedTrailer := by
  constructor
  · decide
  · decide

/-!
## Association-list lemmas and the extensions claims (C5)
-/

theorem contains_iff (l : List Tag) (t : Tag) : l.contains t = true ↔ t ∈ l := by
  simp [List.contains, List.elem_iff]

theorem lookupTag_nil (q : Tag) : lookupTag [] q = none := rfl

theorem lookupTag_upsert (m : List (Tag × JStr)) (k : Tag) (v : JStr) (q : Tag) :
    lookupTag (upsert m k v) q = if q = k then some v else lookupTag m q := by
  induction m with
  | nil =>
    by_cases hq : q = k
    · subst hq; simp [upsert, lookupTag, List.find?]
    · have hkq : ¬ (k = q) := fun h => hq h.symm
      simp [upsert, lookupTag, List.find?, hkq, hq]
  | cons p t ih =>
    by_cases hpk : p.1 = k
    · simp only [upsert, if_pos hpk]
      by_cases hq : q = k
      · subst hq
        simp [lookupTag, List.find?]
      · have hkq : ¬ (k = q) := fun h => hq h.symm
        have hpq : ¬ (p.1 = q) := by rw [hpk]; exact hkq
        simp [lookupTag, List.find?, hkq, hpq, hq]
    · simp only [upsert, if_neg hpk]
      by_cases hpq : p.1 = q
      · have hqk : ¬ (q = k) := by
          intro h
          exact hpk (by rw [hpq, h])
        simp [lookupTag, List.find?, hpq, hqk]
      · have hskip : ∀ l : List (Tag × JStr), lookupTag (p :: l) q = lookupTag l q := by
          intro l
          simp [lookupTag, List.find?, hpq]
        rw [hskip (upsert t k v), ih]
        by_cases hq2 : q = k
        · rw [if_pos hq2, if_pos hq2]
        · rw [if_neg hq2, if_neg hq2, hskip t]

theorem mem_keys_upsert {m : List (Tag × JStr)} {k : Tag} {v : JStr} {a : Tag}
    (h : a ∈ (upsert m k v).map Prod.fst) : a ∈ m.map Prod.fst ∨ a = k := by
  induction m with
  | nil => simpa [upsert] using h
  | cons p t ih =>
    by_cases hpk : p.1 = k
    · simp only [upsert, if_pos hpk, List.map, List.mem_cons] at h
      rcases h with h | h
      · exact Or.inr h
      · exact Or.inl (by simp only [List.map, List.mem_cons]; exact Or.inr h)
    · simp only [upsert, if_neg hpk, List.map, List.mem_cons] at h
      rcases h with h | h
      · exact Or.inl (by simp only [List.map, List.mem_cons]; exact Or.inl h)
      · rcases ih h with h2 | h2
        · exact Or.inl (by simp only [List.map, List.mem_cons]; exact Or.inr h2)
        · exact Or.inr h2

theorem nodupKeys_upsert {m : List (Tag × JStr)}
    (h : (m.map Prod.fst).Nodup) (k : Tag) (v : JStr) :
    ((upsert m k v).map Prod.fst).Nodup := by
  induction m with
  | nil => simp [upsert]
  | cons p t ih =>
    simp only [List.map, List.nodup_cons] at h
    by_cases hpk : p.1 = k
    · simp only [upsert, if_pos hpk, List.map, List.nodup_cons]
      exact ⟨by rw [← hpk]; exact h.1, h.2⟩
    · simp only [upsert, if_neg hpk, List.map, List.nodup_cons]
      refine ⟨?_, ih h.2⟩
      intro hmem
      rcases mem_keys_upsert hmem with h2 | h2
      · exact h.1 h2
      · exact hpk h2

theorem nodupKeys_scanFold (thr : Nat) (ms : List (Nat × Tag × JStr)) :
    ∀ acc : List (Tag × JStr), (acc.map Prod.fst).Nodup →
      (((ms.foldl (pfScanStep thr) acc)).map Prod.fst).Nodup := by
  induction ms with
  | nil => intro acc h; simpa using h
  | cons m rest ih =>
    intro acc h
    simp only [List.foldl]
    apply ih
    unfold pfScanStep
    split
    · exact nodupKeys_upsert h _ _
    · exact h

theorem nodupKeys_segFold (thr : Nat) (parts : List (Nat × JStr)) :
    ∀ acc : List (Tag × JStr), (acc.map Prod.fst).Nodup →
      (((parts.foldl (pfSegStep thr) acc)).map Prod.fst).Nodup := by
  induction parts with
  | nil => intro acc h; simpa using h
  | cons ip rest ih =>
    intro acc h
    simp only [List.foldl]
    apply ih
    unfold pfSegStep
    split
    · exact nodupKeys_scanFold thr _ acc h
    · split
      · split
        · exact nodupKeys_upsert h _ _
        · exact h
      · exact h

theorem nodupKeys_parseFields (raw : JStr) :
    ((parseFields raw).map Prod.fst).Nodup := by
  unfold parseFields
  have base := nodupKeys_segFold
    (fixedFieldThreshold (((splitOnPipe raw).headD []).take 2))
    (splitOnPipe raw).enum [] (by simp)
  cases hay : findAYseq raw with
  | none => simpa [hay] using base
  | some d =>
    simp only [hay]
    exact nodupKeys_upsert base _ _

theorem lookupTag_eq_none_iff (m : List (Tag × JStr)) (t : Tag) :
    lookupTag m t = none ↔ ∀ p ∈ m, p.1 ≠ t := by
  simp [lookupTag, List.find?_eq_none]

/-- A tag may land in `extensions` only when it avoids `AY`, `AZ` and the
variant's known set. -/
def extGood (known : List Tag) (t : Tag) : Prop :=
  t ∉ known ∧ t ≠ ('A', 'Y') ∧ t ≠ ('A', 'Z')

theorem extStep_of_good (known : List Tag) (acc : List (Tag × JStr))
    (p : Tag × JStr) (h : extGood known p.1) :
    extStep known acc p = upsert acc p.1 p.2 := by
  have h1 : ¬ (p.1 = ('A', 'Y') ∨ p.1 = ('A', 'Z')) := by
    rintro (h2 | h2)
    · exact h.2.1 h2
    · exact h.2.2 h2
  have h2 : ¬ (known.contains p.1 = true) :=
    fun hc => h.1 ((contains_iff _ _).mp hc)
  unfold extStep
  rw [if_neg h1, if_neg h2]

theorem extStep_of_bad (known : List Tag) (acc : List (Tag × JStr))
    (p : Tag × JStr) (h : ¬ extGood known p.1) :
    extStep known acc p = acc := by
  unfold extStep
  split
  · rfl
  · split
    · rfl
    · rename_i hay hknown
      exact absurd ⟨fun hm => hknown ((contains_iff _ _).mpr hm),
        fun h2 => hay (Or.inl h2), fun h2 => hay (Or.inr h2)⟩ h

theorem lookupTag_extFold_of_no_key (known : List Tag)
    (l : List (Tag × JStr)) :
    ∀ acc t, (∀ p ∈ l, p.1 ≠ t) →
      lookupTag (l.foldl (extStep known) acc) t = lookupTag acc t := by
  induction l with
  | nil => intro acc t _; rfl
  | cons p rest ih =>
    intro acc t h
    simp only [List.foldl]
    rw [ih _ t (fun q hq => h q (List.mem_cons_of_mem _ hq))]
    by_cases hg : extGood known p.1
    · rw [extStep_of_good known acc p hg, lookupTag_upsert, if_neg]
      intro he
      exact h p (List.mem_cons_self _ _) he.symm
    · rw [extStep_of_bad known acc p hg]

theorem lookupTag_extFold_of_bad (known : List Tag) (l : List (Tag × JStr)) :
    ∀ acc t, ¬ extGood known t →
      lookupTag (l.foldl (extStep known) acc) t = lookupTag acc t := by
  induction l with
  | nil => intro acc t _; rfl
  | cons p rest ih =>
    intro acc t hbad
    simp only [List.foldl]
    rw [ih _ t hbad]
    by_cases hg : extGood known p.1
    · rw [extStep_of_good known acc p hg, lookupTag_upsert, if_neg]
      intro he
      rw [he] at hbad
      exact hbad hg
    · rw [extStep_of_bad known acc p hg]

theorem lookupTag_extFold_of_found (known : List Tag) (l : List (Tag × JStr)) :
    ∀ acc t v, extGood known t → (l.map Prod.fst).Nodup →
      lookupTag l t = some v →
      lookupTag (l.foldl (extStep known) acc) t = some v := by
  induction l with
  | nil => intro acc t v _ _ h; simp [lookupTag, List.find?] at h
  | cons p rest ih =>
    intro acc t v hgood hnd hfound
    simp only [List.map, List.nodup_cons] at hnd
    by_cases hpt : p.1 = t
    · have hv : p.2 = v := by
        simpa [lookupTag, List.find?, hpt] using hfound
      have hnokey : ∀ q ∈ rest, q.1 ≠ t := by
        intro q hq he
        apply hnd.1
        rw [hpt, ← he]
        exact List.mem_map_of_mem _ hq
      simp only [List.foldl]
      rw [lookupTag_extFold_of_no_key known rest _ t hnokey]
      have hg : extGood known p.1 := by rw [hpt]; exact hgood
      rw [extStep_of_good known acc p hg, lookupTag_upsert, if_pos hpt.symm, hv]
    · have hfound2 : lookupTag rest t = some v := by
        simpa [lookupTag, List.find?, hpt] using hfound
      simp only [List.foldl]
      exact ih _ t v hgood hnd.2 hfound2

theorem upsert_ne_nil (m : List (Tag × JStr)) (k : Tag) (v : JStr) :
    upsert m k v ≠ [] := by
  cases m with
  | nil => simp [upsert]
  | cons p t =>
    unfold upsert
    split <;> simp

theorem extFold_eq_nil (known : List Tag) (l : List (Tag × JStr)) :
    ∀ acc, l.foldl (extStep known) acc = [] →
      acc = [] ∧ ∀ p ∈ l, ¬ extGood known p.1 := by
  induction l with
  | nil => intro acc h; exact ⟨h, by simp⟩
  | cons p rest ih =>
    intro acc h
    simp only [List.foldl] at h
    obtain ⟨hstep, hrest⟩ := ih _ h
    by_cases hg : extGood known p.1
    · rw [extStep_of_good known acc p hg] at hstep
      exact absurd hstep (upsert_ne_nil _ _ _)
    · rw [extStep_of_bad known acc p hg] at hstep
      refine ⟨hstep, ?_⟩
      intro q hq
      rcases List.mem_cons.mp hq with h2 | h2
      · rw [h2]; exact hg
      · exact hrest q h2

theorem extFold_of_all_bad (known : List Tag) (l : List (Tag × JStr)) :
    ∀ acc, (∀ p ∈ l, ¬ extGood known p.1) →
      l.foldl (extStep known) acc = acc := by
  induction l with
  | nil => intro acc _; rfl
  | cons p rest ih =>
    intro acc h
    simp only [List.foldl]
    rw [extStep_of_bad known acc p (h p (List.mem_cons_self _ _)),
      ih _ (fun q hq => h q (List.mem_cons_of_mem _ hq))]

/-- C5: for any frame and any known-tag set, the extensions object never
holds a known tag nor `AY`/`AZ`; it holds every other parsed tag with its
parsed value; it is omitted (undefined) exactly when no such tag was parsed;
and the patron-status parser wires `parseExtensions` with its own known set
into the record it returns. -/
theorem c5_extensions (raw : JStr) (known : List Tag) :
    (∀ t : Tag, (t ∈ known ∨ t = ('A', 'Y') ∨ t = ('A', 'Z')) →
      lookupTag (parseExtensionsList raw known) t = none) ∧
    (∀ t : Tag, t ∉ known → t ≠ ('A', 'Y') → t ≠ ('A', 'Z') →
      lookupTag (parseExtensionsList raw known) t =
        lookupTag (parseFields raw) t) ∧
    (parseExtensions raw known = none ↔
      ∀ p ∈ parseFields raw,
        p.1 ∈ known ∨ p.1 = ('A', 'Y') ∨ p.1 = ('A', 'Z')) ∧
    (∀ r, parsePatronStatusResponse raw = Except.ok r →
      r.extensions = parseExtensions raw TAGS_PATRON_STATUS) := by
  have hbadiff : ∀ t : Tag,
      (t ∈ known ∨ t = ('A', 'Y') ∨ t = ('A', 'Z')) ↔ ¬ extGood known t := by
    intro t
    unfold extGood
    constructor
    · rintro (h | h | h) ⟨h1, h2, h3⟩
      · exact h1 h
      · exact h2 h
      · exact h3 h
    · intro h
      by_cases hm : t ∈ known
      · exact Or.inl hm
      · by_cases hy : t = ('A', 'Y')
        · exact Or.inr (Or.inl hy)
        · by_cases hz : t = ('A', 'Z')
          · exact Or.inr (Or.inr hz)
          · exact absurd ⟨hm, hy, hz⟩ h
  refine ⟨?_, ?_, ?_, ?_⟩
  · intro t ht
    unfold parseExtensionsList
    rw [lookupTag_extFold_of_bad known _ [] t ((hbadiff t).mp ht)]
    rfl
  · intro t h1 h2 h3
    unfold parseExtensionsList
    cases hf : lookupTag (parseFields raw) t with
    | none =>
      rw [lookupTag_extFold_of_no_key known _ [] t
        ((lookupTag_eq_none_iff _ t).mp hf)]
      rfl
    | some v =>
      exact lookupTag_extFold_of_found known _ [] t v ⟨h1, h2, h3⟩
        (nodupKeys_parseFields raw) hf
  · constructor
    · intro h
      by_cases hemp : parseExtensionsList raw known = []
      · intro p hp
        apply (hbadiff p.1).mpr
        refine (extFold_eq_nil known (parseFields raw) [] ?_).2 p hp
        unfold parseExtensionsList at hemp
        exact hemp
      · exfalso
        unfold parseExtensions at h
        rw [if_neg (by simpa [List.isEmpty_iff] using hemp)] at h
        exact Option.noConfusion h
    · intro h
      have hnil : parseExtensionsList raw known = [] :=
        extFold_of_all_bad known (parseFields raw) []
          (fun p hp => (hbadiff p.1).mp (h p hp))
      unfold parseExtensions
      rw [hnil]
      rfl
  · intro r hr
    by_cases hx : ("24".data.isPrefixOf raw) = true
    · simp only [parsePatronStatusResponse, hx, Bool.not_true, Bool.false_eq_true,
        if_false, ite_false, Except.ok.injEq] at hr
      rw [← hr]
    · have : ("24".data.isPrefixOf raw) = false := by
        cases hxx : ("24".data.isPrefixOf raw)
        · rfl
        · exact absurd hxx hx
      simp [parsePatronStatusResponse, this] at hr

theorem c5_extensions_witness :
    lookupTag
      (parseExtensionsList
        ("24              00120260222    120000AOTest|AAP1|XAfoo|AY0AZ1234\r".data)
        TAGS_PATRON_STATUS) ('A', 'O') = none ∧
    lookupTag
      (parseExtensionsList
        ("24              00120260222    120000AOTest|AAP1|XAfoo|AY0AZ1234\r".data)
        TAGS_PATRON_STATUS) ('X', 'A') =
      lookupTag
        (parseFields
          ("24              00120260222    120000AOTest|AAP1|XAfoo|AY0AZ1234\r".data))
        ('X', 'A') :=
  ⟨((c5_extensions
      ("24              00120260222    120000AOTest|AAP1|XAfoo|AY0AZ1234\r".data)
      TAGS_PATRON_STATUS).1 ('A', 'O') (by decide)),
   ((c5_extensions
      ("24              00120260222    120000AOTest|AAP1|XAfoo|AY0AZ1234\r".data)
      TAGS_PATRON_STATUS).2.1 ('X', 'A') (by decide) (by decide) (by decide))⟩

/-!
## Circuit-breaker claims (C2)
-/

/-- C2: the breaker starts CLOSED with zero failures; three consecutive
recorded failures from the initial state move it to OPEN (one or two do
not); once the retry time has been reached, `getClient` moves an OPEN
breaker to HALF_OPEN; a recorded success moves a HALF_OPEN breaker to CLOSED
zeroing the failure count and backoff index; a recorded failure in
HALF_OPEN returns it to OPEN and advances the backoff index by one, capped
at the last slot of the backoff schedule. -/
theorem c2_circuit_breaker :
    (initBreaker.state = CircuitState.CLOSED ∧ initBreaker.failureCount = 0) ∧
    (∀ t1 t2 t3 : Nat,
      (recordFailure initBreaker t1).state = CircuitState.CLOSED ∧
      (recordFailure (recordFailure initBreaker t1) t2).state =
        CircuitState.CLOSED ∧
      (recordFailure (recordFailure (recordFailure initBreaker t1) t2) t3).state =
        CircuitState.OPEN) ∧
    (∀ (b : CircuitBreaker) (t now : Nat), b.state = CircuitState.OPEN →
      b.nextRetryAt = some t → 0 < t → t ≤ now →
      getClientGate b now =
        Except.ok { b with state := CircuitState.HALF_OPEN, halfOpenLocked := true }) ∧
    (∀ b : CircuitBreaker, b.state = CircuitState.HALF_OPEN →
      (recordSuccess b).state = CircuitState.CLOSED ∧
      (recordSuccess b).failureCount = 0 ∧
      (recordSuccess b).backoffIndex = 0) ∧
    (∀ (b : CircuitBreaker) (now : Nat), b.state = CircuitState.HALF_OPEN →
      b.backoffIndex ≤ BACKOFF_SCHEDULE.length - 1 →
      (recordFailure b now).state = CircuitState.OPEN ∧
      (recordFailure b now).backoffIndex =
        min (b.backoffIndex + 1) (BACKOFF_SCHEDULE.length - 1)) := by
  refine ⟨⟨rfl, rfl⟩, ?_, ?_, ?_, ?_⟩
  · intro t1 t2 t3
    refine ⟨?_, ?_, ?_⟩ <;>
      simp [recordFailure, initBreaker, FAILURE_THRESHOLD, backoffAt, BACKOFF_SCHEDULE]
  · intro b t now hb hnra h0 hle
    simp [getClientGate, retryDue, hnra, hb, h0, hle]
  · intro b hb
    exact ⟨rfl, rfl, rfl⟩
  · intro b now hb hbi
    have h4 : BACKOFF_SCHEDULE.length - 1 = 4 := rfl
    rw [h4] at hbi ⊢
    simp only [recordFailure, hb]
    constructor
    · split
      · split <;> rfl
      · rename_i hcond
        exact absurd (Or.inr trivial) hcond
    · split
      · split
        · rename_i hlt
          rw [h4] at hlt
          show b.backoffIndex + 1 = min (b.backoffIndex + 1) 4
          omega
        · rename_i hlt
          rw [h4] at hlt
          show b.backoffIndex = min (b.backoffIndex + 1) 4
          omega
      · rename_i hcond
        exact absurd (Or.inr trivial) hcond

/-- C9: each response parser raises the unexpected-response-code error
exactly when its input does not start with a command code that parser
expects; the checkout/renew parser expects `12` or `30`, every other parser
its single code. -/
theorem c9_unexpected_code :
    (∀ raw : JStr,
      parsePatronStatusResponse raw = Except.error JsError.unexpectedResponseCode ↔
        "24".data.isPrefixOf raw = false) ∧
    (∀ raw : JStr,
      parseCheckoutResponse raw = Except.error JsError.unexpectedResponseCode ↔
        ("12".data.isPrefixOf raw = false ∧ "30".data.isPrefixOf raw = false)) ∧
    (∀ raw : JStr,
      parseCheckinResponse raw = Except.error JsError.unexpectedResponseCode ↔
        "10".data.isPrefixOf raw = false) ∧
    (∀ raw : JStr,
      parseItemInformationResponse raw = Except.error JsError.unexpectedResponseCode ↔
        "18".data.isPrefixOf raw = false) ∧
    (∀ raw : JStr,
      parseFeePaidResponse raw = Except.error JsError.unexpectedResponseCode ↔
        "38".data.isPrefixOf raw = false) ∧
    (∀ raw : JStr,
      parsePatronInformationResponse raw = Except.error JsError.unexpectedResponseCode ↔
        "64".data.isPrefixOf raw = false) ∧
    (∀ raw : JStr,
      parseHoldResponse raw = Except.error JsError.unexpectedResponseCode ↔
        "16".data.isPrefixOf raw = false) ∧
    (∀ raw : JStr,
      parseRenewAllResponse raw = Except.error JsError.unexpectedResponseCode ↔
        "66".data.isPrefixOf raw = false) ∧
    (∀ raw : JStr,
      parseEndSessionResponse raw = Except.error JsError.unexpectedResponseCode ↔
        "36".data.isPrefixOf raw = false) ∧
    (∀ raw : JStr,
      parseACSStatusResponse raw = Except.error JsError.unexpectedResponseCode ↔
        "98".data.isPrefixOf raw = false) ∧
    (∀ raw : JStr,
      parseItemStatusUpdateResponse raw = Except.error JsError.unexpectedResponseCode ↔
        "20".data.isPrefixOf raw = false) ∧
    (∀ raw : JStr,
      parsePatronEnableResponse raw = Except.error JsError.unexpectedResponseCode ↔
        "26".data.isPrefixOf raw = false) := by
  refine ⟨?_, ?_, ?_, ?_, ?_, ?_, ?_, ?_, ?_, ?_, ?_, ?_⟩ <;> intro raw
  · cases hx : ("24".data.isPrefixOf raw) <;> simp [parsePatronStatusResponse, hx]
  · cases hx1 : ("12".data.isPrefixOf raw) <;> cases hx2 : ("30".data.isPrefixOf raw) <;>
      simp [parseCheckoutResponse, hx1, hx2]
  · cases hx : ("10".data.isPrefixOf raw) <;> simp [parseCheckinResponse, hx]
  · cases hx : ("18".data.isPrefixOf raw) <;> simp [parseItemInformationResponse, hx]
  · cases hx : ("38".data.isPrefixOf raw) <;> simp [parseFeePaidResponse, hx]
  · cases hx : ("64".data.isPrefixOf raw) <;> simp [parsePatronInformationResponse, hx]
  · cases hx : ("16".data.isPrefixOf raw) <;> simp [parseHoldResponse, hx]
  · cases hx : ("66".data.isPrefixOf raw) <;> simp [parseRenewAllResponse, hx]
  · cases hx : ("36".data.isPrefixOf raw) <;> simp [parseEndSessionResponse, hx]
  · cases hx : ("98".data.isPrefixOf raw) <;> simp [parseACSStatusResponse, hx]
  · cases hx : ("20".data.isPrefixOf raw) <;> simp [parseItemStatusUpdateResponse, hx]
  · cases hx : ("26".data.isPrefixOf raw) <;> simp [parsePatronEnableResponse, hx]

theorem c9_unexpected_code_witness :
    parsePatronStatusResponse ("99hello".data) =
      Except.error JsError.unexpectedResponseCode :=
  (c9_unexpected_code.1 ("99hello".data)).mpr (by decide)

/-- C4 counterexample: on the minimal accepted input `"24"`, the patron
status parser substitutes the placeholder `"Unknown"` — not the empty
string, `0`, or `false` — for the absent patron-name field. -/
theorem c4_counterexample :
    parsePatronStatusResponse ("24".data) =
      Except.ok
        { patronBarcode := []
        , patronName := "Unknown".data
        , validPatron := false
        , holdItemsCount := some 0
        , overdueItemsCount := some 0
        , chargedItemsCount := some 0
        , recallItemsCount := some 0
        , unavailHoldsCount := some 0
        , flags :=
          { chargePrivilegesDenied := false
          , renewalPrivilegesDenied := false
          , recallPrivilegesDenied := false
          , holdPrivilegesDenied := false
          , cardReportedLost := false
          , tooManyItemsOverdue := false
          , excessiveFines := false }
        , screenMessages := []
        , extensions := none } ∧
    ("Unknown".data : JStr) ≠ [] := by
  exact ⟨by decide, by decide⟩

/-- C4 (corrected form): every one of the twelve response parsers returns a
record without raising on every input that starts with a command code it
accepts, however truncated or malformed the remainder; absent fields get
defaults — the empty string, `0`, `false`, the empty list, the placeholders
`Unknown` (patron name) and `Unknown Title` (title), and absent optional
fields are omitted — as witnessed on the minimal inputs below. -/
theorem c4_parser_robustness :
    (∀ raw : JStr, "24".data.isPrefixOf raw = true →
      (parsePatronStatusResponse raw).isOk = true) ∧
    (∀ raw : JStr, ("12".data.isPrefixOf raw || "30".data.isPrefixOf raw) = true →
      (parseCheckoutResponse raw).isOk = true) ∧
    (∀ raw : JStr, "10".data.isPrefixOf raw = true →
      (parseCheckinResponse raw).isOk = true) ∧
    (∀ raw : JStr, "18".data.isPrefixOf raw = true →
      (parseItemInformationResponse raw).isOk = true) ∧
    (∀ raw : JStr, "38".data.isPrefixOf raw = true →
      (parseFeePaidResponse raw).isOk = true) ∧
    (∀ raw : JStr, "64".data.isPrefixOf raw = true →
      (parsePatronInformationResponse raw).isOk = true) ∧
    (∀ raw : JStr, "16".data.isPrefixOf raw = true →
      (parseHoldResponse raw).isOk = true) ∧
    (∀ raw : JStr, "66".data.isPrefixOf raw = true →
      (parseRenewAllResponse raw).isOk = true) ∧
    (∀ raw : JStr, "36".data.isPrefixOf raw = true →
      (parseEndSessionResponse raw).isOk = true) ∧
    (∀ raw : JStr, "98".data.isPrefixOf raw = true →
      (parseACSStatusResponse raw).isOk = true) ∧
    (∀ raw : JStr, "20".data.isPrefixOf raw = true →
      (parseItemStatusUpdateResponse raw).isOk = true) ∧
    (∀ raw : JStr, "26".data.isPrefixOf raw = true →
      (parsePatronEnableResponse raw).isOk = true) ∧
    parseCheckoutResponse ("12".data) =
      Except.ok
        { ok := false
        , renewalOk := false
        , transactionDate := []
        , institutionId := []
        , patronBarcode := []
        , itemBarcode := []
        , titleId := "Unknown Title".data
        , dueDate := []
        , feeAmount := none
        , screenMessage := none
        , screenMessages := []
        , printLine := none
        , extensions := none } ∧
    parsePatronInformationResponse ("64".data) =
      Except.ok
        { patronBarcode := []
        , patronName := "Unknown".data
        , validPatron := false
        , holdItemsCount := some 0
        , overdueItemsCount := some 0
        , chargedItemsCount := some 0
        , fineItemsCount := some 0
        , recallItemsCount := some 0
        , unavailHoldsCount := some 0
        , flags :=
          { chargePrivilegesDenied := false
          , renewalPrivilegesDenied := false
          , recallPrivilegesDenied := false
          , holdPrivilegesDenied := false
          , cardReportedLost := false
          , tooManyItemsOverdue := false
          , excessiveFines := false }
        , holdItems := []
        , overdueItems := []
        , chargedItems := []
        , fineItems := []
        , recallItems := []
        , email := none
        , phone := none
        , homeAddress := none
        , screenMessage := none
        , screenMessages := []
        , extensions := none } := by
  refine ⟨?_, ?_, ?_, ?_, ?_, ?_, ?_, ?_, ?_, ?_, ?_, ?_, by decide, by decide⟩
  · intro raw h
    simp [parsePatronStatusResponse, h, Except.isOk, Except.toBool]
  · intro raw h
    rcases (by simpa using h :
        "12".data.isPrefixOf raw = true ∨ "30".data.isPrefixOf raw = true) with h1 | h1 <;>
      simp [parseCheckoutResponse, h1, Except.isOk, Except.toBool]
  · intro raw h
    simp [parseCheckinResponse, h, Except.isOk, Except.toBool]
  · intro raw h
    simp [parseItemInformationResponse, h, Except.isOk, Except.toBool]
  · intro raw h
    simp [parseFeePaidResponse, h, Except.isOk, Except.toBool]
  · intro raw h
    simp [parsePatronInformationResponse, h, Except.isOk, Except.toBool]
  · intro raw h
    simp [parseHoldResponse, h, Except.isOk, Except.toBool]
  · intro raw h
    simp [parseRenewAllResponse, h, Except.isOk, Except.toBool]
  · intro raw h
    simp [parseEndSessionResponse, h, Except.isOk, Except.toBool]
  · intro raw h
    simp [parseACSStatusResponse, h, Except.isOk, Except.toBool]
  · intro raw h
    simp [parseItemStatusUpdateResponse, h, Except.isOk, Except.toBool]
  · intro raw h
    simp [parsePatronEnableResponse, h, Except.isOk, Except.toBool]

theorem c4_parser_robustness_witness :
    (parsePatronStatusResponse ("24\xff\xfegarbage|||AZ".data)).isOk = true ∧
    (parseCheckoutResponse ("30".data)).isOk = true :=
  ⟨c4_parser_robustness.1 ("24\xff\xfegarbage|||AZ".data) (by decide),
   c4_parser_robustness.2.1 ("30".data) (by decide)⟩

theorem c2_circuit_breaker_witness :
    (recordFailure (recordFailure (recordFailure initBreaker 0) 1) 2).state =
      CircuitState.OPEN ∧
    getClientGate
      { state := CircuitState.OPEN, failureCount := 3, lastFailureAt := some 2,
        nextRetryAt := some 5002, backoffIndex := 1, halfOpenLocked := false } 6000 =
      Except.ok
        { state := CircuitState.HALF_OPEN, failureCount := 3,
          lastFailureAt := some 2, nextRetryAt := some 5002, backoffIndex := 1,
          halfOpenLocked := true } ∧
    (recordSuccess
      { state := CircuitState.HALF_OPEN, failureCount := 3,
        lastFailureAt := some 2, nextRetryAt := some 5002, backoffIndex := 1,
        halfOpenLocked := true }).state = CircuitState.CLOSED ∧
    (recordFailure
      { state := CircuitState.HALF_OPEN, failureCount := 3,
        lastFailureAt := some 2, nextRetryAt := some 5002, backoffIndex := 1,
        halfOpenLocked := true } 7000).backoffIndex =
      min (1 + 1) (BACKOFF_SCHEDULE.length - 1) :=
  ⟨(c2_circuit_breaker.2.1 0 1 2).2.2,
   c2_circuit_breaker.2.2.1 _ 5002 6000 rfl rfl (by decide) (by decide),
   (c2_circuit_breaker.2.2.2.1 _ rfl).1,
   (c2_circuit_breaker.2.2.2.2 _ 7000 rfl (by decide)).2⟩

/-!
## Masking claims (C10, C6)
-/

/-- C10: `mask` returns the empty string unchanged without consulting the
master key — it never raises the missing-master-key error on empty input
even with the key unset — and it raises that error exactly when the input
is non-empty and the key is not configured. -/
theorem c10_mask_empty :
    (∀ key : Option JStr, mask key [] = Except.ok []) ∧
    (∀ (key : Option JStr) (data : JStr),
      mask key data = Except.error JsError.masterKeyMissing ↔
        (data ≠ [] ∧ key = none)) := by
  constructor
  · intro key; rfl
  · intro key data
    constructor
    · intro h
      unfold mask at h
      by_cases hd : data.isEmpty = true
      · rw [if_pos hd] at h
        exact Except.noConfusion h
      · rw [if_neg hd] at h
        cases key with
        | none => exact ⟨by simpa [List.isEmpty_iff] using hd, rfl⟩
        | some k => exact Except.noConfusion h
    · rintro ⟨hne, hkey⟩
      subst hkey
      unfold mask
      rw [if_neg (by simpa [List.isEmpty_iff] using hne)]

theorem c10_mask_empty_witness :
    mask none [] = Except.ok [] ∧
    mask none ("x".data) = Except.error JsError.masterKeyMissing :=
  ⟨c10_mask_empty.1 none,
   (c10_mask_empty.2 none ("x".data)).mpr ⟨by decide, rfl⟩⟩

/-- The payload `{patronBarcode: "P12345", password: "x"}` of the masking
claim. -/
def c6Payload : JsValue :=
  .vObj (.cons ("patronBarcode".data) (.vStr ("P12345".data))
        (.cons ("password".data) (.vStr ("x".data)) .nil))

set_option maxRecDepth 100000 in
/-- C6 counterexample: with the master key `"testkey"` configured, masking
the payload twice yields a different `MASKED_<hex16>` for the barcode than
masking once — the second pass re-masks the already-masked value — refuting
the claimed equality. -/
theorem c6_counterexample :
    resultField (maskPayload (some ("testkey".data)) c6Payload)
      ("patronBarcode".data) = some ("MASKED_21d669a40556927e".data) ∧
    resultField ((maskPayload (some ("testkey".data)) c6Payload).bind
      (maskPayload (some ("testkey".data)))) ("patronBarcode".data) =
      some ("MASKED_0a3b612c06af6b4a".data) ∧
    ("MASKED_21d669a40556927e".data : JStr) ≠ ("MASKED_0a3b612c06af6b4a".data : JStr) := by
  refine ⟨by decide, by decide, by decide⟩

set_option maxRecDepth 100000 in
/-- C6 (corrected form): with a master key configured, masking once or twice
yields `"********"` for the password (for every key); with the key
`"testkey"`, the barcode masks to a `MASKED_<hex16>` value, masking twice
re-masks that value into a different `MASKED_<hex16>`, and the two distinct
barcodes `P12345`/`P12346` produce two distinct masked values. -/
theorem c6_masking :
    (∀ key : JStr,
      resultField (maskPayload (some key) c6Payload) ("password".data) =
        some ("********".data) ∧
      resultField ((maskPayload (some key) c6Payload).bind
        (maskPayload (some key))) ("password".data) = some ("********".data)) ∧
    resultField (maskPayload (some ("testkey".data)) c6Payload)
      ("patronBarcode".data) = some ("MASKED_21d669a40556927e".data) ∧
    resultField ((maskPayload (some ("testkey".data)) c6Payload).bind
      (maskPayload (some ("testkey".data)))) ("patronBarcode".data) =
      some ("MASKED_0a3b612c06af6b4a".data) ∧
    ("MASKED_21d669a40556927e".data : JStr) ≠ ("MASKED_0a3b612c06af6b4a".data : JStr) ∧
    mask (some ("testkey".data)) ("P12345".data) =
      Except.ok ("MASKED_21d669a40556927e".data) ∧
    mask (some ("testkey".data)) ("P12346".data) =
      Except.ok ("MASKED_d8c67f9b20984a5e".data) ∧
    ("MASKED_21d669a40556927e".data : JStr) ≠ ("MASKED_d8c67f9b20984a5e".data : JStr) := by
  refine ⟨?_, by decide, by decide, by decide, by decide, by decide, by decide⟩
  intro key
  exact ⟨rfl, rfl⟩

end SipBridge
